import Mathlib

/-!
Shallow embedding of the procedural 2D world generator (chunk generation,
biome classification, structure placement/registry, road graphs, scatter,
autotiling) together with theorems settling the specification claims.

Modelling conventions:
* JavaScript numbers are modelled as exact rationals (`ℚ`) and integers
  (`ℤ`/`ℕ`).  All arithmetic the generator performs on its pseudo-random
  values (`k / 2^32` rationals) and on integer coordinates is exact in IEEE
  doubles for the magnitudes that occur, so the rational model is
  behaviourally identical; decimal literal thresholds (0.03, 0.3, …) are
  modelled as the corresponding decimal rationals, which order identically
  against every representable `k / 2^32` draw.
* Noise samplers are external inputs of the generator and are modelled as
  arbitrary functions `ℚ → ℚ → ℚ`.
* JavaScript objects used as string-keyed maps (the structure registry, the
  chunk cache) are modelled as association lists in insertion order, which
  is the enumeration order of `for … in` for the non-index keys used here.
  The string keys `"${cx},${cy}"` are modelled by the integer pairs
  `(cx, cy)` (the string encoding is injective on integer pairs and is
  parsed back to the same pair).
* Mutation is modelled by returning the updated value.
-/

namespace WorldGen

/-! ### config.js -/

namespace CONFIG

def CHUNK_SIZE : ℕ := 32

def STRUCTURE_SPACING : ℤ := 4

def STRUCTURE_SPAWN_CHANCE_VILLAGE : ℚ := 3/100

def STRUCTURE_SPAWN_CHANCE_DUNGEON : ℚ := 5/100

def NOISE_SCALE : ℚ := 5/100

def TEMP_SCALE : ℚ := 2/100

def HUMIDITY_SCALE : ℚ := 2/100

def SCATTER_SCALE : ℚ := 8/100

def WATER_THRESHOLD : ℚ := 3/10

def SAND_THRESHOLD : ℚ := 35/100

def MOUNTAIN_THRESHOLD : ℚ := 8/10

def SNOW_THRESHOLD : ℚ := 9/10

def DESERT_TEMP : ℚ := 7/10

def DESERT_HUMIDITY : ℚ := 4/10

def SNOW_TEMP : ℚ := 3/10

def FOREST_HUMIDITY : ℚ := 6/10

def FOREST_TREE_DENSITY : ℚ := 55/100

def GRASS_TREE_DENSITY : ℚ := 75/100

def GRASS_ROCK_DENSITY_MIN : ℚ := 65/100

def GRASS_ROCK_DENSITY_MAX : ℚ := 7/10

def MOUNTAIN_ROCK_DENSITY : ℚ := 6/10

end CONFIG

/-! ### seed.js — Mulberry32

The JS closure keeps a numeric state `a` that is incremented by
`0x6D2B79F5` on every call without 32-bit coercion; all further operations
read it through 32-bit coercions, so the n-th output depends only on
`seed + (n+1) * 0x6D2B79F5` reduced mod `2^32` (exact in doubles for the
bounded number of draws the generator performs). -/

/-- 32-bit pattern of a JS number holding an exact integer. -/
def m32pat (a : ℤ) : ℕ := (a % (4294967296 : ℤ)).toNat

/-- One Mulberry32 output word computed from the post-increment state `a`. -/
def mulberry32Out (a : ℤ) : ℕ :=
  let t0 := m32pat a
  let t1 := ((Nat.xor t0 (t0 >>> 15)) * (t0 ||| 1)) % 4294967296
  let t2 := Nat.xor t1 ((t1 + ((Nat.xor t1 (t1 >>> 7)) * (t1 ||| 61)) % 4294967296) % 4294967296)
  Nat.xor t2 (t2 >>> 14)

/-- The n-th value (0-based) of the stream `createSeededRandom seed`. -/
def mulberry32 (seed : ℤ) (n : ℕ) : ℚ :=
  (mulberry32Out (seed + ((n : ℤ) + 1) * 1831565813) : ℚ) / 4294967296

/-! ### noise.js -/

/-- `normalizeNoise`: map a `[-1, 1]` noise value into `[0, 1]`. -/
def normalizeNoise (value : ℚ) : ℚ := (value + 1) / 2

/-- The four named noise layers handed to `generateChunk`. -/
structure NoiseFunctions where
  elevation : ℚ → ℚ → ℚ
  temperature : ℚ → ℚ → ℚ
  humidity : ℚ → ℚ → ℚ
  scatter : ℚ → ℚ → ℚ

/-! ### biome.js -/

/-- `classifyBiome`: ordered threshold cascade, first match wins. -/
def classifyBiome (elevation temperature humidity : ℚ) : String :=
  if elevation < CONFIG.WATER_THRESHOLD then "water"
  else if elevation < CONFIG.SAND_THRESHOLD then "sand"
  else if elevation > CONFIG.MOUNTAIN_THRESHOLD then
    (if elevation > CONFIG.SNOW_THRESHOLD then "snow" else "mountain")
  else if CONFIG.DESERT_TEMP < temperature ∧ humidity < CONFIG.DESERT_HUMIDITY then "desert"
  else if temperature < CONFIG.SNOW_TEMP then "snow"
  else if humidity > CONFIG.FOREST_HUMIDITY then "forest"
  else "grass"

/-- The closed biome enumeration of the data model (the values
`classifyBiome` can produce together with the two structure biomes). -/
def biomeEnum : List String :=
  ["water", "sand", "grass", "forest", "mountain", "snow", "desert", "village", "dungeon"]

/-! ### structure.js -/

/-- A character-grid template, one inner list per row (JS strings are
indexed per character, so a row is a list of characters). -/
abbrev Template := List (List Char)

def STRUCTURE_TEMPLATES (structureType : String) : Option Template :=
  if structureType = "village" then
    some ([".....", ".VVV.", ".VVV.", ".VVV.", "....."].map String.toList)
  else if structureType = "dungeon" then
    some (["..D..", ".DDD.", "DDDDD", ".DDD.", "..D.."].map String.toList)
  else none

/-- One iteration of the `rotateTemplate` loop: rotate 90° clockwise.
Out-of-range reads (possible only on non-square input) default to a blank
character. -/
def rotateTemplateOnce (result : Template) : Template :=
  let size := result.length
  (List.range size).map (fun y =>
    (List.range size).map (fun x => (result.getD (size - x - 1) []).getD y ' '))

/-- `rotateTemplate(template, rotations)`: apply the single rotation
`rotations % 4` times. -/
def rotateTemplate (template : Template) (rotations : ℕ) : Template :=
  Nat.iterate rotateTemplateOnce (rotations % 4) template

/-- `scaleTemplate(template, scale)`: expand every cell into `scale × scale`
copies. -/
def scaleTemplate (template : Template) (scale : ℕ) : Template :=
  if scale = 1 then template
  else template.flatMap (fun row =>
    (List.range scale).map (fun _ => row.flatMap (fun c => (List.range scale).map (fun _ => c))))

structure RandomizedTemplate where
  template : Template
  rotation : ℕ
  scale : ℕ
deriving DecidableEq

/-- `getRandomizedTemplate(structureType, seed)`: seeded rotation in `0..3`
and scale in `1..2`, then rotate and scale the base template. -/
def getRandomizedTemplate (structureType : String) (seed : ℤ) : Option RandomizedTemplate :=
  match STRUCTURE_TEMPLATES structureType with
  | none => none
  | some baseTemplate =>
    let rotation := (⌊mulberry32 seed 0 * 4⌋).toNat
    let scale := 1 + (⌊mulberry32 seed 1 * 2⌋).toNat
    some ⟨scaleTemplate (rotateTemplate baseTemplate rotation) scale, rotation, scale⟩

/-- `canPlaceStructure(structureType, biomeName, isWater)`. -/
def canPlaceStructure (structureType biomeName : String) (isWater : Bool) : Bool :=
  if isWater then false
  else if structureType = "village" then
    (biomeName = "grass" ∨ biomeName = "forest" ∨ biomeName = "grassland" : Bool)
  else if structureType = "dungeon" then (biomeName ≠ "water" : Bool)
  else false

/-- `getStructureKey(cx, cy)`: the registry key.  The JS string key
`"${cx},${cy}"` is modelled by the integer pair itself. -/
def getStructureKey (cx cy : ℤ) : ℤ × ℤ := (cx, cy)

/-! ### tile.js -/

/-- A `TILE_VARIANTS` record. -/
structure TileVariantData where
  id : String
  rotation : ℕ
  priority : ℕ
deriving DecidableEq

/-- One world tile.  Field `structure` of the source is called
`structureTag` here (`structure` is a Lean keyword); fields the Tile
constructor leaves undefined until autotiling (`tileMask`, `tileVariant`,
`neighborBiomes`) are modelled with `none` / `[]` initial values. -/
structure Tile where
  x : ℤ
  y : ℤ
  elevation : ℚ
  biome : String
  temperature : ℚ
  humidity : ℚ
  structureTag : Option String
  object : Option String
  roadType : Option String
  tileMask : Option ℕ
  tileVariant : Option TileVariantData
  neighborBiomes : List (String × String)
deriving DecidableEq

/-- Placeholder tile used as the default of safe indexing; never read at
in-range indices. -/
def defaultTile : Tile :=
  ⟨0, 0, 0, "", 0, 0, none, none, none, none, none, []⟩

/-! ### scatter.js -/

/-- `getScatterType(tile, worldX, worldY, scatterNoise)`: the tile enters
only through its `structure` tag and biome, which are passed explicitly. -/
def getScatterType (tileStructure : Option String) (tileBiome : String)
    (worldX worldY : ℤ) (scatterNoise : ℚ → ℚ → ℚ) : Option String :=
  if tileStructure ≠ none ∨ tileBiome = "water" then none
  else
    let density := normalizeNoise
      (scatterNoise (worldX * CONFIG.SCATTER_SCALE) (worldY * CONFIG.SCATTER_SCALE))
    if tileBiome = "forest" ∧ density > CONFIG.FOREST_TREE_DENSITY then some "tree"
    else if (tileBiome = "grass" ∨ tileBiome = "grassland") ∧
        density > CONFIG.GRASS_TREE_DENSITY then some "tree"
    else if (tileBiome = "grass" ∨ tileBiome = "grassland") ∧
        density > CONFIG.GRASS_ROCK_DENSITY_MIN ∧
        density < CONFIG.GRASS_ROCK_DENSITY_MAX then some "rock"
    else if tileBiome = "mountain" ∧ density > CONFIG.MOUNTAIN_ROCK_DENSITY then some "rock"
    else if tileBiome = "desert" ∧ density > 7/10 then some "rock"
    else none

/-! ### autotile.js -/

def BIOME_GROUPS : List (String × ℕ) :=
  [("water", 0), ("sand", 1), ("grass", 2), ("grassland", 2), ("forest", 3),
   ("mountain", 4), ("snow", 5), ("desert", 6), ("village", 7), ("dungeon", 8)]

def BIOME_TRANSITIONS : List (ℕ × List ℕ) :=
  [(0, [0, 1]), (1, [1, 0, 2]), (2, [2, 3, 1]), (3, [3, 2]), (4, [4, 5]),
   (5, [5, 4]), (6, [6, 1]), (7, [7, 2]), (8, [8])]

/-- `TILE_VARIANTS` lookup table, keyed by exact mask value. -/
def TILE_VARIANTS : List (ℕ × TileVariantData) :=
  [(0x00, ⟨"full", 0, 1⟩), (0xff, ⟨"corners", 0, 2⟩),
   (0x01, ⟨"n", 0, 3⟩), (0x02, ⟨"e", 0, 3⟩), (0x04, ⟨"s", 0, 3⟩), (0x08, ⟨"w", 0, 3⟩),
   (0x10, ⟨"nw", 0, 4⟩), (0x20, ⟨"ne", 0, 4⟩), (0x40, ⟨"se", 0, 4⟩), (0x80, ⟨"sw", 0, 4⟩),
   (0x0e, ⟨"t_down", 0, 5⟩), (0x0d, ⟨"t_right", 0, 5⟩), (0x0b, ⟨"t_up", 0, 5⟩),
   (0x07, ⟨"t_left", 0, 5⟩),
   (0x05, ⟨"edge_h", 0, 6⟩), (0x0a, ⟨"edge_v", 0, 6⟩),
   (0x0c, ⟨"corner_ne", 0, 7⟩), (0x06, ⟨"corner_nw", 0, 7⟩), (0x03, ⟨"corner_se", 0, 7⟩),
   (0x09, ⟨"corner_sw", 0, 7⟩),
   (0x0f, ⟨"single", 0, 8⟩)]

def lookupTileVariant (mask : ℕ) : Option TileVariantData :=
  (TILE_VARIANTS.find? (fun p => p.1 == mask)).map (·.2)

def lookupBiomeGroup (biome : String) : Option ℕ :=
  (BIOME_GROUPS.find? (fun p => p.1 == biome)).map (·.2)

def lookupTransitions (group : ℕ) : Option (List ℕ) :=
  (BIOME_TRANSITIONS.find? (fun p => p.1 == group)).map (·.2)

/-- `canTransition(fromBiome, toBiome)`. -/
def canTransition (fromBiome toBiome : String) : Bool :=
  if fromBiome = toBiome then true
  else
    match lookupBiomeGroup fromBiome, lookupBiomeGroup toBiome with
    | some fromGroup, some toGroup =>
      match lookupTransitions fromGroup with
      | some l => l.contains toGroup
      | none => false
    | _, _ => false

/-- Neighbor offsets and bit positions, in the iteration order of
`calculateTileMask`: N, NE, E, SE, S, SW, W, NW. -/
def neighborOffsets : List (ℤ × ℤ × ℕ) :=
  [(0, -1, 0), (1, -1, 1), (1, 0, 2), (1, 1, 3), (0, 1, 4), (-1, 1, 5), (-1, 0, 6), (-1, -1, 7)]

def directionNames : List String := ["N", "NE", "E", "SE", "S", "SW", "W", "NW"]

/-- The bounds test of `calculateTileMask`:
`nx >= 0 && nx < chunkTiles.length && ny >= 0 && ny < chunkTiles[0]?.length`. -/
def inChunkBounds (chunkTiles : List (List Tile)) (nx ny : ℤ) : Prop :=
  0 ≤ nx ∧ nx < chunkTiles.length ∧ 0 ≤ ny ∧ ny < (chunkTiles.headD []).length

instance (chunkTiles : List (List Tile)) (nx ny : ℤ) :
    Decidable (inChunkBounds chunkTiles nx ny) := by
  unfold inChunkBounds; infer_instance

/-- Tile at `chunkTiles[nx][ny]` (caller guarantees bounds). -/
def tileAtXY (chunkTiles : List (List Tile)) (nx ny : ℤ) : Tile :=
  (chunkTiles.getD nx.toNat []).getD ny.toNat defaultTile

/-- One neighbor check of `calculateTileMask`: bounds test, record the
neighbor biome, and set bit `d.2.2` when the center can transition to it. -/
def maskFoldStep (centerBiome : String) (chunkTiles : List (List Tile))
    (localX localY : ℤ) (acc : ℕ × List (String × String)) (d : ℤ × ℤ × ℕ) :
    ℕ × List (String × String) :=
  let nx := localX + d.1
  let ny := localY + d.2.1
  if inChunkBounds chunkTiles nx ny then
    let neighborBiome := (tileAtXY chunkTiles nx ny).biome
    let recorded := acc.2 ++ [(directionNames.getD d.2.2 "", neighborBiome)]
    if canTransition centerBiome neighborBiome then
      (acc.1 ||| (1 <<< d.2.2), recorded)
    else (acc.1, recorded)
  else acc

/-- `calculateTileMask(centerTile, chunkTiles, localX, localY)`: the center
tile enters only through its biome; the mutation of
`centerTile.neighborBiomes` is modelled by returning the direction-keyed
association list alongside the mask. -/
def calculateTileMask (centerBiome : String) (chunkTiles : List (List Tile))
    (localX localY : ℤ) : ℕ × List (String × String) :=
  neighborOffsets.foldl (maskFoldStep centerBiome chunkTiles localX localY) (0, [])

/-- `getVariantFromMask(mask)`: exact table lookup, with the source's
fallback chain (`0xff` and `0x00` re-lookups are dead branches since both
keys are in the table; the live fallback is the `0x00` entry). -/
def getVariantFromMask (mask : ℕ) : Option TileVariantData :=
  match lookupTileVariant mask with
  | some v => some v
  | none =>
    if mask = 0xff then lookupTileVariant 0xff
    else if mask = 0x00 then lookupTileVariant 0x00
    else lookupTileVariant 0x00

/-- `applyChunkAutotiling(chunkTiles)`: recompute variant data on every
tile.  In the source the writes mutate only `tileVariant` / `tileMask` /
`neighborBiomes`, none of which feed later mask computations, so the
in-place update equals this pure per-tile map over the input grid. -/
def applyChunkAutotiling (chunkTiles : List (List Tile)) : List (List Tile) :=
  let width := chunkTiles.length
  let height := (chunkTiles.headD []).length
  (List.range width).map (fun (x : ℕ) =>
    (List.range height).map (fun (y : ℕ) =>
      let tile := tileAtXY chunkTiles (x : ℤ) (y : ℤ)
      if tile.structureTag ≠ none then { tile with tileVariant := none }
      else
        let res := calculateTileMask tile.biome chunkTiles (x : ℤ) (y : ℤ)
        { tile with
            neighborBiomes := res.2
            tileVariant := getVariantFromMask res.1
            tileMask := some res.1 }))

/-! ### chunk.js — structure registry and chunk generation -/

/-- A registry entry: `{ type, cx, cy }`. -/
structure StructureRecord where
  type : String
  cx : ℤ
  cy : ℤ
deriving DecidableEq

/-- The structure registry: a string-keyed JS object modelled as an
association list in insertion order (the `for … in` enumeration order of
its comma-containing keys). -/
abbrev Registry := List ((ℤ × ℤ) × StructureRecord)

/-- `registry[key] = value`: update in place when the key exists (JS keeps
the key's position), append otherwise. -/
def registrySet (reg : Registry) (key : ℤ × ℤ) (value : StructureRecord) : Registry :=
  if reg.any (fun p => p.1 == key) then
    reg.map (fun p => if p.1 == key then (key, value) else p)
  else reg ++ [(key, value)]

/-- The registry scan of `generateChunk`: first record (in enumeration
order) whose origin chunk is within Chebyshev distance 1. -/
def findNearbyStructure (cx cy : ℤ) (reg : Registry) : Option StructureRecord :=
  (reg.find? (fun p => decide (|cx - p.2.cx| ≤ 1 ∧ |cy - p.2.cy| ≤ 1))).map (·.2)

/-- The grid cell of a chunk coordinate (`Math.floor(c / SPACING)`). -/
def gridCellOf (cx cy : ℤ) : ℤ × ℤ :=
  (Int.fdiv cx CONFIG.STRUCTURE_SPACING, Int.fdiv cy CONFIG.STRUCTURE_SPACING)

/-- The seed of the grid-cell stream
(`worldSeed + gridX * 918273 + gridY * 192837`). -/
def gridSeedOf (worldSeed gridX gridY : ℤ) : ℤ :=
  worldSeed + gridX * 918273 + gridY * 192837

/-- The unique candidate chunk of a grid cell: the cell origin plus the
seeded x/y offsets drawn in `0..SPACING-1`. -/
def candidateChunkOf (worldSeed gridX gridY : ℤ) : ℤ × ℤ :=
  let SPACING := CONFIG.STRUCTURE_SPACING
  let gridSeed := gridSeedOf worldSeed gridX gridY
  let candidateOffX := ⌊mulberry32 gridSeed 0 * (SPACING : ℚ)⌋
  let candidateOffY := ⌊mulberry32 gridSeed 1 * (SPACING : ℚ)⌋
  (gridX * SPACING + candidateOffX, gridY * SPACING + candidateOffY)

/-- Lines 56–94 of `generateChunk` without the registry insertion: the
structure type this chunk rolls for itself (`null` when it is not its
cell's candidate or the roll fails).  Registry-independent. -/
def rollStructure (cx cy worldSeed : ℤ) : Option String :=
  let cell := gridCellOf cx cy
  let isCandidateChunk := (cx, cy) = candidateChunkOf worldSeed cell.1 cell.2
  if isCandidateChunk then
    let roll := mulberry32 (gridSeedOf worldSeed cell.1 cell.2) 2
    if roll < CONFIG.STRUCTURE_SPAWN_CHANCE_VILLAGE then some "village"
    else if roll < CONFIG.STRUCTURE_SPAWN_CHANCE_DUNGEON then some "dungeon"
    else none
  else none

/-- The structure-placement phase of `generateChunk` (lines 56–116):
grid-cell candidacy and the spawn roll (`rollStructure`) with its registry
insertion, then the nearby-structure adoption scan.  Returns the resolved
`structureType` and the updated registry.  (The scan also sets the
otherwise-unused local `structureChunk`; it is dead and omitted.  The scan
runs before the insertion-free branches see it only through
`structureType`, exactly as in the source where a chunk's own fresh record
is already visible to its scan.) -/
def structurePhase (cx cy worldSeed : ℤ) (registry : Registry) : Option String × Registry :=
  let rollResult := rollStructure cx cy worldSeed
  let registry1 :=
    match rollResult with
    | some ty => registrySet registry (getStructureKey cx cy) ⟨ty, cx, cy⟩
    | none => registry
  let structureType :=
    match rollResult with
    | some ty => some ty
    | none => (findNearbyStructure cx cy registry1).map (·.type)
  (structureType, registry1)

/-- The template phase of `generateChunk` (lines 122–133).  `templateScale`
is computed by the source but never read afterwards and is omitted. -/
def templatePhase (cx cy worldSeed : ℤ) (structureType : Option String) : Option Template :=
  match structureType with
  | none => none
  | some ty =>
    let templateSeed := worldSeed + cx * 123456 + cy * 789012
    match getRandomizedTemplate ty templateSeed with
    | none => none
    | some templateData => some templateData.template

/-- One tile of the generation loop of `generateChunk` (lines 145–244):
noise sampling with domain warp, biome classification, structure-template
overlay with terrain flattening, and object scatter.  `x`, `y` are the
local in-chunk coordinates. -/
def mkTile (cx cy : ℤ) (noiseFunctions : NoiseFunctions)
    (structureType : Option String) (rotatedTemplate : Option Template)
    (x y : ℕ) : Tile :=
  let worldX : ℤ := cx * (CONFIG.CHUNK_SIZE : ℤ) + x
  let worldY : ℤ := cy * (CONFIG.CHUNK_SIZE : ℤ) + y
  let warp := normalizeNoise
    (noiseFunctions.elevation ((worldX : ℚ) * (1/100)) ((worldY : ℚ) * (1/100)))
  let elevation := normalizeNoise
    (noiseFunctions.elevation ((worldX : ℚ) * CONFIG.NOISE_SCALE + warp * 8)
      ((worldY : ℚ) * CONFIG.NOISE_SCALE + warp * 8))
  let temperature := normalizeNoise
    (noiseFunctions.temperature ((worldX : ℚ) * CONFIG.TEMP_SCALE)
      ((worldY : ℚ) * CONFIG.TEMP_SCALE))
  let humidity := normalizeNoise
    (noiseFunctions.humidity ((worldX : ℚ) * CONFIG.HUMIDITY_SCALE)
      ((worldY : ℚ) * CONFIG.HUMIDITY_SCALE))
  let biome0 := classifyBiome elevation temperature humidity
  -- structure template overlay: (structure tag, biome, elevation) after it
  let overlay : Option String × String × ℚ :=
    match structureType, rotatedTemplate with
    | some ty, some template =>
      let size : ℤ := template.length
      let start := Int.fdiv ((CONFIG.CHUNK_SIZE : ℤ) - size) 2
      let tx := (x : ℤ) - start
      let ty2 := (y : ℤ) - start
      if 0 ≤ tx ∧ 0 ≤ ty2 ∧ tx < size ∧ ty2 < size then
        let ch := (template.getD ty2.toNat []).getD tx.toNat ' '
        if ch ≠ '.' then
          if canPlaceStructure ty biome0 (biome0 = "water" : Bool) then
            (some ty, ty, if ty = "village" then 1/2 else elevation)
          else (none, biome0, elevation)
        else (none, biome0, elevation)
      else (none, biome0, elevation)
    | _, _ => (none, biome0, elevation)
  let structureTag := overlay.1
  let biome := overlay.2.1
  let elevation2 := overlay.2.2
  -- new Tile(...) sets roadType = null and nothing assigns it before the
  -- scatter check, so the guard reads this initial value
  let roadType : Option String := none
  let object :=
    if structureTag = none ∧ biome ≠ "water" ∧ roadType = none then
      getScatterType structureTag biome worldX worldY noiseFunctions.scatter
    else none
  { x := worldX, y := worldY, elevation := elevation2, biome := biome,
    temperature := temperature, humidity := humidity,
    structureTag := structureTag, object := object, roadType := roadType,
    tileMask := none, tileVariant := none, neighborBiomes := [] }

/-- The `CHUNK_SIZE × CHUNK_SIZE` grid of the generation loop, before
autotiling (outer index x, inner index y, as in the source's
`chunk[x][y]`). -/
def chunkBaseGrid (cx cy : ℤ) (noiseFunctions : NoiseFunctions)
    (structureType : Option String) (rotatedTemplate : Option Template) :
    List (List Tile) :=
  (List.range CONFIG.CHUNK_SIZE).map (fun x =>
    (List.range CONFIG.CHUNK_SIZE).map (fun y =>
      mkTile cx cy noiseFunctions structureType rotatedTemplate x y))

/-- `generateChunk(cx, cy, worldSeed, noiseFunctions, registry)`: returns
the autotiled tile grid together with the updated registry.  The source
also creates a per-chunk `chunkRng` stream that is never drawn from; it is
omitted. -/
def generateChunk (cx cy worldSeed : ℤ) (noiseFunctions : NoiseFunctions)
    (registry : Registry) : List (List Tile) × Registry :=
  let phase := structurePhase cx cy worldSeed registry
  let rotatedTemplate := templatePhase cx cy worldSeed phase.1
  (applyChunkAutotiling (chunkBaseGrid cx cy noiseFunctions phase.1 rotatedTemplate),
    phase.2)

/-! ### chunk.js — ChunkCache -/

/-- The chunk cache: both maps are string-keyed JS objects modelled as
association lists keyed by the integer pair (see `getStructureKey`). -/
structure ChunkCache where
  chunks : List ((ℤ × ℤ) × List (List Tile))
  registry : Registry

/-- `ChunkCache.unloadDistantChunks(centerCX, centerCY, keepDistance)`:
collect the keys with `dx > keepDistance || dy > keepDistance` and delete
them from `this.chunks` (deleting a batch of keys from a JS object keeps
the remaining entries in order, i.e. is a filter).  `this.registry` is not
touched by this method. -/
def ChunkCache.unloadDistantChunks (cache : ChunkCache)
    (centerCX centerCY keepDistance : ℤ) : ChunkCache :=
  { cache with
      chunks := cache.chunks.filter (fun p =>
        !(decide (|p.1.1 - centerCX| > keepDistance) ||
          decide (|p.1.2 - centerCY| > keepDistance))) }

/-! ### road.js

`RoadNode` objects are identified by their index in `graph.nodes`; an edge
stores the indices of its `from` and `to` nodes (the source stores object
references: `from` is `nodes[parentIdx]`, `to` is the node just pushed, so
reference identity is exactly index identity).  The transcendental parts of
a node position (`Math.cos`, `Math.sin`, `Math.PI`) are abstracted as
function/constant parameters: the graph structure never depends on them. -/

structure RoadGraphData where
  centerX : ℚ
  centerY : ℚ
  nodes : List (ℤ × ℤ)
  edges : List (ℕ × ℕ)
deriving DecidableEq

/-- `seededRandomAngle(rng)` = `rng() * Math.PI * 2`, with `Math.PI`
abstracted as `piV`. -/
def seededRandomAngle (rngValue piV : ℚ) : ℚ := rngValue * piV * 2

/-- `Math.floor(rng() * this.nodes.length)` at iteration `i` (the rng draw
is the `3i`-th of the stream), as a non-negative index. -/
def parentDraw (rng : ℕ → ℚ) (i len : ℕ) : ℕ := (⌊rng (3 * i) * (len : ℚ)⌋).toNat

/-- One iteration (index `i ≥ 1`) of the `generateGraph` loop: draw angle,
distance, push the node, then draw the parent index from the length of the
list *after* the push (rng draws are at stream indices `3i−2`, `3i−1`,
`3i`). -/
def growGraphStep (centerX centerY : ℚ) (rng : ℕ → ℚ) (cosF sinF : ℚ → ℚ) (piV : ℚ)
    (acc : List (ℤ × ℤ) × List (ℕ × ℕ)) (i : ℕ) : List (ℤ × ℤ) × List (ℕ × ℕ) :=
  let angle := seededRandomAngle (rng (3 * i - 2)) piV
  let distance := 6 + rng (3 * i - 1) * 12
  let x := centerX + cosF angle * distance
  let y := centerY + sinF angle * distance
  let node : ℤ × ℤ := (⌊x⌋, ⌊y⌋)
  let nodes1 := acc.1 ++ [node]
  let parentIdx := parentDraw rng i nodes1.length
  (nodes1, acc.2 ++ [(parentIdx, nodes1.length - 1)])

/-- `RoadGraph` construction (`constructor` + `generateGraph`). -/
def generateGraph (centerX centerY : ℚ) (rng : ℕ → ℚ) (cosF sinF : ℚ → ℚ)
    (piV : ℚ) : RoadGraphData :=
  let centerNode : ℤ × ℤ := (⌊centerX⌋, ⌊centerY⌋)
  let nodeCount := 5 + (⌊rng 0 * 6⌋).toNat
  let grown := (List.range' 1 (nodeCount - 1)).foldl
    (growGraphStep centerX centerY rng cosF sinF piV) ([centerNode], [])
  ⟨centerX, centerY, grown.1, grown.2⟩

/-- `generateVillageRoadGraph(centerX, centerY, seed)`. -/
def generateVillageRoadGraph (centerX centerY : ℚ) (seed : ℤ)
    (cosF sinF : ℚ → ℚ) (piV : ℚ) : RoadGraphData :=
  generateGraph centerX centerY (mulberry32 seed) cosF sinF piV

/-! ### road.js — rasterization -/

/-- Bresenham stepper of `drawLineOnGrid`, with explicit fuel (the source's
`while (true)` loop always terminates within `dx + dy + 1` visits; the
embedding's fuel is chosen that large). -/
def bresenhamAux (x1 y1 sx sy dx dy : ℤ) :
    ℕ → ℤ → ℤ → ℤ → List (ℤ × ℤ)
  | 0, _, _, _ => []
  | fuel + 1, x0, y0, err =>
    (x0, y0) ::
      (if x0 = x1 ∧ y0 = y1 then []
       else
        let e2 := err * 2
        let step1 : ℤ × ℤ := if e2 > -dy then (err - dy, x0 + sx) else (err, x0)
        let step2 : ℤ × ℤ := if e2 < dx then (step1.1 + dx, y0 + sy) else (step1.1, y0)
        bresenhamAux x1 y1 sx sy dx dy fuel step1.2 step2.2 step2.1)

/-- `drawLineOnGrid(callback, x0, y0, x1, y1)`: the visited integer points,
in visit order (the callback is modelled by returning the list).  Inputs
are already integers at every call site (`RoadNode` floors its
coordinates), so the leading `Math.floor` calls are identities. -/
def drawLineOnGrid (x0 y0 x1 y1 : ℤ) : List (ℤ × ℤ) :=
  let dx := |x1 - x0|
  let dy := |y1 - y0|
  let sx : ℤ := if x0 < x1 then 1 else -1
  let sy : ℤ := if y0 < y1 then 1 else -1
  bresenhamAux x1 y1 sx sy dx dy (dx + dy + 1).toNat x0 y0 (dx - dy)

/-- `options.roadWidth || 1` (JS: 0 is falsy). -/
def optRoadWidth (roadWidth : Option ℤ) : ℤ :=
  match roadWidth with
  | some w => if w = 0 then 1 else w
  | none => 1

/-- `options.roadType || "road"` (JS: the empty string is falsy). -/
def optRoadType (roadType : Option String) : String :=
  match roadType with
  | some s => if s = "" then "road" else s
  | none => "road"

/-- Rasterization options. -/
structure RoadOptions where
  roadWidth : Option ℤ
  roadType : Option String

/-- Closed list of integers `a..b`. -/
def intRangeIncl (a b : ℤ) : List ℤ :=
  (List.range (b + 1 - a).toNat).map (fun k => a + k)

/-- The per-tile write of `rasterizeroads`: set `roadType` at
`tileMap[ty][tx]` only when the tile exists and its `roadType` is null
(grids here are row-major, `tileMap[ty][tx]`, as in `rasterizeroads`). -/
def setRoadIfNull (tileMap : List (List Tile)) (tx ty : ℤ) (rt : String) :
    List (List Tile) :=
  if 0 ≤ ty ∧ ty < tileMap.length ∧ 0 ≤ tx ∧ tx < (tileMap.getD ty.toNat []).length then
    if ((tileMap.getD ty.toNat []).getD tx.toNat defaultTile).roadType = none then
      tileMap.set ty.toNat
        ((tileMap.getD ty.toNat []).set tx.toNat
          { (tileMap.getD ty.toNat []).getD tx.toNat defaultTile with roadType := some rt })
    else tileMap
  else tileMap

/-- The width-square write around one line point. -/
def writeSquare (g : List (List Tile)) (x y w : ℤ) (rt : String) : List (List Tile) :=
  (intRangeIncl (-w) w).foldl
    (fun g1 dx => (intRangeIncl (-w) w).foldl
      (fun g2 dy => setRoadIfNull g2 (x + dx) (y + dy) rt) g1) g

/-- `rasterizeroads(tileMap, graph, options)`: for every edge (in edge-list
order), walk the Bresenham line between the `from` and `to` node positions
and stamp the width square around every line point. -/
def rasterizeroads (tileMap : List (List Tile)) (graph : RoadGraphData)
    (options : RoadOptions) : List (List Tile) :=
  graph.edges.foldl
    (fun g e =>
      (drawLineOnGrid (graph.nodes.getD e.1 (0, 0)).1 (graph.nodes.getD e.1 (0, 0)).2
        (graph.nodes.getD e.2 (0, 0)).1 (graph.nodes.getD e.2 (0, 0)).2).foldl
        (fun g2 p => writeSquare g2 p.1 p.2 (optRoadWidth options.roadWidth)
          (optRoadType options.roadType)) g)
    tileMap

/-! ### Auxiliary definitions used by the verification -/

/-- Total cell accessor of a template (blank char out of range, as in the
rotation's own reads). -/
def tcell (t : Template) (y x : ℕ) : Char := (t.getD y []).getD x ' '

/-- A square template: every row as long as the row list. -/
def isSquareTemplate (t : Template) : Prop := ∀ row ∈ t, row.length = t.length

instance (t : Template) : Decidable (isSquareTemplate t) := by
  unfold isSquareTemplate; infer_instance

/-- Constant noise layers used by concrete evaluations: every
sample is −1/2, so every tile normalizes to elevation 1/4 < WATER_THRESHOLD
and the whole chunk is water. -/
def constNoise : NoiseFunctions :=
  ⟨fun _ _ => -(1/2), fun _ _ => -(1/2), fun _ _ => -(1/2), fun _ _ => -(1/2)⟩

/-- A concrete cache holding one chunk at (10, 0) with its structure-registry
entry, used to test eviction from center (0, 0) with keep distance 3. -/
def c4Cache : ChunkCache :=
  { chunks := [((10, 0), [])],
    registry := [((10, 0), ⟨"village", 10, 0⟩)] }

/-- The constant-zero function standing in for `Math.cos` / `Math.sin` in
concrete evaluations (the edge structure never depends on them). -/
def zeroFun : ℚ → ℚ := fun _ => 0

/-- Row-major tile accessor of `rasterizeroads` grids
(`tileMap[y][x]`, with the placeholder default out of range). -/
def roadTileAt (tileMap : List (List Tile)) (y x : ℕ) : Tile :=
  (tileMap.getD y []).getD x defaultTile

/-- Fold of `setRoadIfNull` over a list of positions `(tx, ty)`. -/
def applyRoadWrites (ps : List (ℤ × ℤ)) (rt : String) (g : List (List Tile)) :
    List (List Tile) :=
  ps.foldl (fun g2 p => setRoadIfNull g2 p.1 p.2 rt) g

/-- All positions `rasterizeroads` writes, in write order: for each edge,
each Bresenham line point, and each offset in the width square. -/
def roadWritePositions (graph : RoadGraphData) (w : ℤ) : List (ℤ × ℤ) :=
  graph.edges.flatMap (fun e =>
    (drawLineOnGrid (graph.nodes.getD e.1 (0, 0)).1 (graph.nodes.getD e.1 (0, 0)).2
      (graph.nodes.getD e.2 (0, 0)).1 (graph.nodes.getD e.2 (0, 0)).2).flatMap (fun p =>
      (intRangeIncl (-w) w).flatMap (fun dx =>
        (intRangeIncl (-w) w).map (fun dy => (p.1 + dx, p.2 + dy)))))

/-- A bare tile of the given biome (used by concrete autotile checks). -/
def c6TileOf (b : String) : Tile :=
  ⟨0, 0, 0, b, 0, 0, none, none, none, none, none, []⟩

/-- A 3×3 grid of grass tiles. -/
def c6GrassGrid : List (List Tile) :=
  List.replicate 3 (List.replicate 3 (c6TileOf "grass"))

/-- A 3×3 grid of water tiles. -/
def c6WaterGrid : List (List Tile) :=
  List.replicate 3 (List.replicate 3 (c6TileOf "water"))

/-- A 1×1 grid whose only tile already carries a road tag. -/
def c7Grid : List (List Tile) :=
  [[{ c6TileOf "grass" with roadType := some "road" }]]

/-- A one-edge road graph at the origin. -/
def c7Graph : RoadGraphData := ⟨0, 0, [(0, 0)], [(0, 0)]⟩

/-- Default rasterization options (`roadWidth` 1, `roadType` "road"). -/
def c7Options : RoadOptions := ⟨none, none⟩

/-- The registries reachable from the empty registry (a fresh `ChunkCache`)
through a sequence of `generateChunk` calls at a fixed world seed and noise
set. -/
inductive RegistryReachable (worldSeed : ℤ) (noiseFunctions : NoiseFunctions) :
    Registry → Prop where
  | nil : RegistryReachable worldSeed noiseFunctions []
  | step (cx cy : ℤ) {reg : Registry} :
      RegistryReachable worldSeed noiseFunctions reg →
      RegistryReachable worldSeed noiseFunctions
        (generateChunk cx cy worldSeed noiseFunctions reg).2

/-- Registry invariant: every record sits at its own chunk key, and that
chunk is the unique candidate of its grid cell. -/
def registryInv (worldSeed : ℤ) (reg : Registry) : Prop :=
  ∀ e ∈ reg, e.1 = (e.2.cx, e.2.cy) ∧
    (e.2.cx, e.2.cy) =
      candidateChunkOf worldSeed (gridCellOf e.2.cx e.2.cy).1 (gridCellOf e.2.cx e.2.cy).2

/-! ## Theorems -/

theorem mulberry32Out_lt (a : ℤ) : mulberry32Out a < 4294967296 := by
  have h32 : (4294967296 : ℕ) = 2 ^ 32 := by norm_num
  unfold mulberry32Out
  have h1 : ((Nat.xor (m32pat a) (m32pat a >>> 15)) * (m32pat a ||| 1)) % 4294967296 < 2 ^ 32 := by
    rw [h32] at *
    exact Nat.mod_lt _ (by norm_num)
  have h2 : ((((Nat.xor (m32pat a) (m32pat a >>> 15)) * (m32pat a ||| 1)) % 4294967296 +
      ((Nat.xor (((Nat.xor (m32pat a) (m32pat a >>> 15)) * (m32pat a ||| 1)) % 4294967296)
        ((((Nat.xor (m32pat a) (m32pat a >>> 15)) * (m32pat a ||| 1)) % 4294967296) >>> 7)) *
        ((((Nat.xor (m32pat a) (m32pat a >>> 15)) * (m32pat a ||| 1)) % 4294967296) ||| 61)) %
        4294967296) % 4294967296) < 2 ^ 32 := by
    rw [h32]
    exact Nat.mod_lt _ (by norm_num)
  rw [h32]
  refine Nat.xor_lt_two_pow (Nat.xor_lt_two_pow h1 h2) ?_
  calc Nat.xor _ _ >>> 14 ≤ Nat.xor _ _ := by
        rw [Nat.shiftRight_eq_div_pow]; exact Nat.div_le_self _ _
    _ < 2 ^ 32 := Nat.xor_lt_two_pow h1 h2

theorem mulberry32_nonneg (seed : ℤ) (n : ℕ) : 0 ≤ mulberry32 seed n := by
  unfold mulberry32
  positivity

theorem mulberry32_lt_one (seed : ℤ) (n : ℕ) : mulberry32 seed n < 1 := by
  unfold mulberry32
  rw [div_lt_one (by norm_num)]
  exact_mod_cast mulberry32Out_lt _


/-- C8: `classifyBiome` is an ordered first-match cascade: every elevation
below `WATER_THRESHOLD` classifies as water and every elevation above
`SNOW_THRESHOLD` classifies as snow, for all temperatures and humidities. -/
theorem classifyBiome_cascade (elevation temperature humidity : ℚ) :
    (elevation < CONFIG.WATER_THRESHOLD →
      classifyBiome elevation temperature humidity = "water") ∧
    (elevation > CONFIG.SNOW_THRESHOLD →
      classifyBiome elevation temperature humidity = "snow") := by
  constructor
  · intro h
    simp only [classifyBiome, if_pos h]
  · intro h
    have h0 : CONFIG.SNOW_THRESHOLD < elevation := h
    simp only [CONFIG.SNOW_THRESHOLD] at h0
    have h1 : ¬ elevation < CONFIG.WATER_THRESHOLD := by
      simp only [CONFIG.WATER_THRESHOLD]; linarith
    have h2 : ¬ elevation < CONFIG.SAND_THRESHOLD := by
      simp only [CONFIG.SAND_THRESHOLD]; linarith
    have h3 : elevation > CONFIG.MOUNTAIN_THRESHOLD := by
      simp only [CONFIG.MOUNTAIN_THRESHOLD]; linarith
    simp only [classifyBiome, if_neg h1, if_neg h2, if_pos h3, if_pos h]

/-- Witness for C8 at the spec's example elevations 0.1 and 0.95. -/
theorem classifyBiome_cascade_witness :
    ((1 : ℚ)/10 < CONFIG.WATER_THRESHOLD ∧
      classifyBiome (1/10) (99/100) (1/100) = "water") ∧
    ((19 : ℚ)/20 > CONFIG.SNOW_THRESHOLD ∧
      classifyBiome (19/20) (1/100) (99/100) = "snow") := by
  have h1 : (1 : ℚ)/10 < CONFIG.WATER_THRESHOLD := by norm_num [CONFIG.WATER_THRESHOLD]
  have h2 : (19 : ℚ)/20 > CONFIG.SNOW_THRESHOLD := by norm_num [CONFIG.SNOW_THRESHOLD]
  exact ⟨⟨h1, (classifyBiome_cascade (1/10) (99/100) (1/100)).1 h1⟩,
    ⟨h2, (classifyBiome_cascade (19/20) (1/100) (99/100)).2 h2⟩⟩

/-- C9: over the closed biome enumeration, `canPlaceStructure` accepts a
village exactly on grass or forest with `isWater` false, accepts a dungeon
exactly off water with `isWater` false, and rejects every structure type
whenever `isWater` is true. -/
theorem canPlaceStructure_spec (biome : String) (hb : biome ∈ biomeEnum)
    (isWater : Bool) (structureType : String) :
    (canPlaceStructure "village" biome isWater = true ↔
      ((biome = "grass" ∨ biome = "forest") ∧ isWater = false)) ∧
    (canPlaceStructure "dungeon" biome isWater = true ↔
      (biome ≠ "water" ∧ isWater = false)) ∧
    canPlaceStructure structureType biome true = false := by
  refine ⟨?_, ?_, ?_⟩
  · fin_cases hb <;> cases isWater <;> decide
  · fin_cases hb <;> cases isWater <;> decide
  · simp [canPlaceStructure]

/-- Witness for C9 at biome "grass", `isWater = false`, type "village". -/
theorem canPlaceStructure_spec_witness :
    (canPlaceStructure "village" "grass" false = true ↔
      (("grass" = "grass" ∨ "grass" = "forest") ∧ false = false)) ∧
    (canPlaceStructure "dungeon" "grass" false = true ↔
      ("grass" ≠ "water" ∧ false = false)) ∧
    canPlaceStructure "village" "grass" true = false :=
  canPlaceStructure_spec "grass" (by decide) false "village"

/-! ### C10: rotateTemplate algebra -/

theorem rotateTemplateOnce_length (t : Template) :
    (rotateTemplateOnce t).length = t.length := by
  simp [rotateTemplateOnce]

theorem rotateTemplateOnce_square (t : Template) :
    isSquareTemplate (rotateTemplateOnce t) := by
  intro row hrow
  simp only [rotateTemplateOnce, List.mem_map] at hrow
  obtain ⟨y, _, rfl⟩ := hrow
  simp [rotateTemplateOnce]

theorem getD_map_range {α : Type} (f : ℕ → α) (n i : ℕ) (d : α) (h : i < n) :
    (List.map f (List.range n)).getD i d = f i := by
  rw [List.getD_eq_getElem _ _ (by simpa using h)]
  simp

theorem tcell_rotateTemplateOnce (t : Template) (y x : ℕ)
    (hy : y < t.length) (hx : x < t.length) :
    tcell (rotateTemplateOnce t) y x = tcell t (t.length - x - 1) y := by
  unfold tcell rotateTemplateOnce
  rw [getD_map_range _ _ _ _ hy, getD_map_range _ _ _ _ hx]

theorem rotateTemplateOnce_four (t : Template) (h : isSquareTemplate t) :
    rotateTemplateOnce (rotateTemplateOnce (rotateTemplateOnce (rotateTemplateOnce t))) = t := by
  set s := t.length with hs
  have l1 : (rotateTemplateOnce t).length = s := rotateTemplateOnce_length t
  have l2 : (rotateTemplateOnce (rotateTemplateOnce t)).length = s := by
    rw [rotateTemplateOnce_length, l1]
  have l3 : (rotateTemplateOnce (rotateTemplateOnce (rotateTemplateOnce t))).length = s := by
    rw [rotateTemplateOnce_length, l2]
  have l4 : (rotateTemplateOnce (rotateTemplateOnce (rotateTemplateOnce
      (rotateTemplateOnce t)))).length = s := by
    rw [rotateTemplateOnce_length, l3]
  have cell4 : ∀ y x, y < s → x < s →
      tcell (rotateTemplateOnce (rotateTemplateOnce (rotateTemplateOnce
        (rotateTemplateOnce t)))) y x = tcell t y x := by
    intro y x hy hx
    rw [show tcell (rotateTemplateOnce (rotateTemplateOnce (rotateTemplateOnce
        (rotateTemplateOnce t)))) y x =
        tcell (rotateTemplateOnce (rotateTemplateOnce (rotateTemplateOnce t))) (s - x - 1) y from by
      have := tcell_rotateTemplateOnce
        (rotateTemplateOnce (rotateTemplateOnce (rotateTemplateOnce t))) y x
        (by omega) (by omega)
      rwa [l3] at this]
    rw [show tcell (rotateTemplateOnce (rotateTemplateOnce (rotateTemplateOnce t)))
        (s - x - 1) y = tcell (rotateTemplateOnce (rotateTemplateOnce t)) (s - y - 1) (s - x - 1)
        from by
      have := tcell_rotateTemplateOnce (rotateTemplateOnce (rotateTemplateOnce t))
        (s - x - 1) y (by omega) (by omega)
      rwa [l2] at this]
    rw [show tcell (rotateTemplateOnce (rotateTemplateOnce t)) (s - y - 1) (s - x - 1) =
        tcell (rotateTemplateOnce t) (s - (s - x - 1) - 1) (s - y - 1) from by
      have := tcell_rotateTemplateOnce (rotateTemplateOnce t) (s - y - 1) (s - x - 1)
        (by omega) (by omega)
      rwa [l1] at this]
    rw [show tcell (rotateTemplateOnce t) (s - (s - x - 1) - 1) (s - y - 1) =
        tcell t (s - (s - y - 1) - 1) (s - (s - x - 1) - 1) from by
      have := tcell_rotateTemplateOnce t (s - (s - x - 1) - 1) (s - y - 1)
        (by omega) (by omega)
      rwa [hs] at this]
    congr 1 <;> omega
  apply List.ext_getElem (by rw [l4, hs])
  intro y hy1 hy2
  have hys : y < s := by rwa [l4] at hy1
  have hrow4 : (rotateTemplateOnce (rotateTemplateOnce (rotateTemplateOnce
      (rotateTemplateOnce t))))[y].length = s := by
    have := rotateTemplateOnce_square (rotateTemplateOnce (rotateTemplateOnce
      (rotateTemplateOnce t))) _ (List.getElem_mem hy1)
    rwa [l4] at this
  have hrowt : t[y].length = s := by
    have := h _ (List.getElem_mem hy2)
    rwa [← hs] at this
  apply List.ext_getElem (by rw [hrow4, hrowt])
  intro x hx1 hx2
  have hxs : x < s := by rwa [hrow4] at hx1
  have e1 : tcell (rotateTemplateOnce (rotateTemplateOnce (rotateTemplateOnce
      (rotateTemplateOnce t)))) y x = _ := cell4 y x hys hxs
  unfold tcell at e1
  rw [List.getD_eq_getElem _ _ hy1, List.getD_eq_getElem _ _ hx1,
    List.getD_eq_getElem _ _ hy2, List.getD_eq_getElem _ _ hx2] at e1
  exact e1

/-- C10: `rotateTemplate` reduces the rotation count mod 4:
`rotateTemplate t k = rotateTemplate t (k % 4)`, rotating by 4 or by 0 is
the identity, and on a square template four successive single rotations
compose to the identity. -/
theorem rotateTemplate_mod_four (template : Template) (rotations : ℕ)
    (h : isSquareTemplate template) :
    rotateTemplate template rotations = rotateTemplate template (rotations % 4) ∧
    rotateTemplate template 4 = template ∧
    rotateTemplate template 0 = template ∧
    rotateTemplate (rotateTemplate (rotateTemplate (rotateTemplate template 1) 1) 1) 1 =
      template := by
  refine ⟨?_, rfl, rfl, ?_⟩
  · unfold rotateTemplate
    have h44 : rotations % 4 % 4 = rotations % 4 := by omega
    rw [h44]
  · show rotateTemplateOnce (rotateTemplateOnce (rotateTemplateOnce
      (rotateTemplateOnce template))) = template
    exact rotateTemplateOnce_four template h

/-- Witness for C10 at the village base template and rotation count 5. -/
theorem rotateTemplate_mod_four_witness :
    isSquareTemplate ((STRUCTURE_TEMPLATES "village").getD []) ∧
    (rotateTemplate ((STRUCTURE_TEMPLATES "village").getD []) 5 =
      rotateTemplate ((STRUCTURE_TEMPLATES "village").getD []) (5 % 4) ∧
    rotateTemplate ((STRUCTURE_TEMPLATES "village").getD []) 4 =
      (STRUCTURE_TEMPLATES "village").getD [] ∧
    rotateTemplate ((STRUCTURE_TEMPLATES "village").getD []) 0 =
      (STRUCTURE_TEMPLATES "village").getD [] ∧
    rotateTemplate (rotateTemplate (rotateTemplate
      (rotateTemplate ((STRUCTURE_TEMPLATES "village").getD []) 1) 1) 1) 1 =
      (STRUCTURE_TEMPLATES "village").getD []) :=
  ⟨by decide, rotateTemplate_mod_four ((STRUCTURE_TEMPLATES "village").getD []) 5 (by decide)⟩

/-! ### C1: determinism of generateChunk -/

theorem registrySet_idem (reg : Registry) (k : ℤ × ℤ) (v : StructureRecord) :
    registrySet (registrySet reg k v) k v = registrySet reg k v := by
  unfold registrySet
  by_cases h : reg.any (fun p => p.1 == k)
  · rw [if_pos h]
    have hany : (reg.map (fun p => if p.1 == k then (k, v) else p)).any
        (fun p => p.1 == k) = true := by
      rw [List.any_map]
      rw [List.any_eq_true] at h ⊢
      obtain ⟨p, hp, hpk⟩ := h
      refine ⟨p, hp, ?_⟩
      simp only [Function.comp_apply, hpk, if_pos]
      exact beq_self_eq_true k
    rw [if_pos hany, List.map_map]
    apply List.map_congr_left
    intro p _
    by_cases hp : p.1 == k
    · simp only [Function.comp_apply, hp, if_pos, beq_self_eq_true k, if_true]
    · simp only [Function.comp_apply, hp, Bool.false_eq_true, if_false]
  · rw [if_neg h]
    have h2 : (reg ++ [(k, v)]).any (fun p => p.1 == k) = true := by
      simp
    rw [if_pos h2, List.map_append]
    have hmap : reg.map (fun p => if p.1 == k then (k, v) else p) = reg := by
      have hall : ∀ p ∈ reg, (p.1 == k) = false := by
        intro p hp
        by_contra hc
        exact h (List.any_eq_true.mpr ⟨p, hp, by simpa using hc⟩)
      calc reg.map (fun p => if p.1 == k then (k, v) else p)
          = reg.map id := List.map_congr_left (fun p hp => by
            simp [hall p hp])
        _ = reg := List.map_id reg
    rw [hmap]
    simp

theorem structurePhase_stable (cx cy worldSeed : ℤ) (registry : Registry) :
    structurePhase cx cy worldSeed (structurePhase cx cy worldSeed registry).2 =
      structurePhase cx cy worldSeed registry := by
  unfold structurePhase
  cases h : rollStructure cx cy worldSeed with
  | none => simp
  | some ty => simp [registrySet_idem]

/-- C1: for fixed chunk coordinate, world seed, noise functions and
registry, `generateChunk` is deterministic: a second call (which sees the
registry as the first call left it, exactly as two successive calls on the
shared JS registry object do) returns the identical tile grid
field-for-field and leaves the registry unchanged.  Grid equality is
structural equality of every tile record, i.e. of every field (elevation,
temperature, humidity, biome, structure, object, roadType, tileMask,
tileVariant, …) of every tile. -/
theorem generateChunk_deterministic (cx cy worldSeed : ℤ)
    (noiseFunctions : NoiseFunctions) (registry : Registry) :
    generateChunk cx cy worldSeed noiseFunctions
        (generateChunk cx cy worldSeed noiseFunctions registry).2 =
      generateChunk cx cy worldSeed noiseFunctions registry := by
  show generateChunk cx cy worldSeed noiseFunctions
      (structurePhase cx cy worldSeed registry).2 =
    generateChunk cx cy worldSeed noiseFunctions registry
  unfold generateChunk
  rw [structurePhase_stable]

/-! ### C5: scatter exclusivity -/

theorem mkTile_scatter_exclusive (cx cy : ℤ) (noiseFunctions : NoiseFunctions)
    (structureType : Option String) (rotatedTemplate : Option Template) (x y : ℕ)
    (hdis : (mkTile cx cy noiseFunctions structureType rotatedTemplate x y).structureTag ≠ none ∨
      (mkTile cx cy noiseFunctions structureType rotatedTemplate x y).roadType ≠ none ∨
      (mkTile cx cy noiseFunctions structureType rotatedTemplate x y).biome = "water") :
    (mkTile cx cy noiseFunctions structureType rotatedTemplate x y).object = none := by
  unfold mkTile at hdis ⊢
  rcases structureType with _ | ty <;> rcases rotatedTemplate with _ | template <;>
    (try dsimp only at hdis ⊢) <;>
    (try split_ifs at hdis ⊢) <;>
    (try dsimp only at hdis ⊢) <;>
    first
      | rfl
      | (rcases hdis with h | h | h <;> simp_all)

theorem applyChunkAutotiling_fields (g : List (List Tile)) (col : List Tile) (t : Tile)
    (hcol : col ∈ applyChunkAutotiling g) (ht : t ∈ col) :
    ∃ (x y : ℕ), x < g.length ∧ y < (g.headD []).length ∧
      t.structureTag = (tileAtXY g (x : ℤ) (y : ℤ)).structureTag ∧
      t.object = (tileAtXY g (x : ℤ) (y : ℤ)).object ∧
      t.roadType = (tileAtXY g (x : ℤ) (y : ℤ)).roadType ∧
      t.biome = (tileAtXY g (x : ℤ) (y : ℤ)).biome := by
  unfold applyChunkAutotiling at hcol
  rw [List.mem_map] at hcol
  obtain ⟨x, hx, rfl⟩ := hcol
  rw [List.mem_map] at ht
  obtain ⟨y, hy, rfl⟩ := ht
  refine ⟨x, y, List.mem_range.mp hx, List.mem_range.mp hy, ?_⟩
  by_cases hs : (tileAtXY g (x : ℤ) (y : ℤ)).structureTag ≠ none <;> simp [hs]

theorem tileAtXY_chunkBaseGrid (cx cy : ℤ) (noiseFunctions : NoiseFunctions)
    (structureType : Option String) (rotatedTemplate : Option Template) (x y : ℕ)
    (hx : x < CONFIG.CHUNK_SIZE) (hy : y < CONFIG.CHUNK_SIZE) :
    tileAtXY (chunkBaseGrid cx cy noiseFunctions structureType rotatedTemplate) x y =
      mkTile cx cy noiseFunctions structureType rotatedTemplate x y := by
  unfold tileAtXY chunkBaseGrid
  rw [show ((x : ℤ)).toNat = x from by simp, show ((y : ℤ)).toNat = y from by simp,
    getD_map_range _ _ _ _ hx, getD_map_range _ _ _ _ hy]

theorem chunkBaseGrid_length (cx cy : ℤ) (noiseFunctions : NoiseFunctions)
    (structureType : Option String) (rotatedTemplate : Option Template) :
    (chunkBaseGrid cx cy noiseFunctions structureType rotatedTemplate).length =
      CONFIG.CHUNK_SIZE := by
  simp [chunkBaseGrid]

theorem chunkBaseGrid_head_length (cx cy : ℤ) (noiseFunctions : NoiseFunctions)
    (structureType : Option String) (rotatedTemplate : Option Template) :
    ((chunkBaseGrid cx cy noiseFunctions structureType rotatedTemplate).headD []).length =
      CONFIG.CHUNK_SIZE := by
  unfold chunkBaseGrid CONFIG.CHUNK_SIZE
  rfl

/-- C5: in every grid produced by `generateChunk`, a tile that carries a
structure, or carries a road tag, or whose biome is water, has no scatter
object. -/
theorem scatter_exclusivity (cx cy worldSeed : ℤ) (noiseFunctions : NoiseFunctions)
    (registry : Registry) (col : List Tile) (t : Tile)
    (hcol : col ∈ (generateChunk cx cy worldSeed noiseFunctions registry).1)
    (ht : t ∈ col)
    (hdis : t.structureTag ≠ none ∨ t.roadType ≠ none ∨ t.biome = "water") :
    t.object = none := by
  have hcol2 : col ∈ applyChunkAutotiling
      (chunkBaseGrid cx cy noiseFunctions (structurePhase cx cy worldSeed registry).1
        (templatePhase cx cy worldSeed (structurePhase cx cy worldSeed registry).1)) := hcol
  obtain ⟨x, y, hx, hy, hst, hob, hrd, hbi⟩ := applyChunkAutotiling_fields _ _ _ hcol2 ht
  rw [chunkBaseGrid_length] at hx
  rw [chunkBaseGrid_head_length] at hy
  rw [tileAtXY_chunkBaseGrid _ _ _ _ _ _ _ hx hy] at hst hob hrd hbi
  rw [hob]
  apply mkTile_scatter_exclusive
  rw [← hst, ← hrd, ← hbi]
  exact hdis

/-! #### C5 witness: seed 0, chunk (0,0), constant noise −1/2 -/

theorem mulberry32_zero_zero : mulberry32 0 0 = (1144304738 : ℚ) / 4294967296 := by
  unfold mulberry32
  rw [show (0 : ℤ) + (((0 : ℕ) : ℤ) + 1) * 1831565813 = 1831565813 by norm_num]
  rw [show mulberry32Out 1831565813 = 1144304738 from by decide]
  norm_num

theorem mulberry32_zero_one : mulberry32 0 1 = (1416247 : ℚ) / 4294967296 := by
  unfold mulberry32
  rw [show (0 : ℤ) + (((1 : ℕ) : ℤ) + 1) * 1831565813 = 3663131626 by norm_num]
  rw [show mulberry32Out 3663131626 = 1416247 from by decide]
  norm_num

theorem candidateChunkOf_zero : candidateChunkOf 0 0 0 = (1, 0) := by
  unfold candidateChunkOf gridSeedOf CONFIG.STRUCTURE_SPACING
  simp only [show (0 : ℤ) + 0 * 918273 + 0 * 192837 = 0 by norm_num,
    mulberry32_zero_zero, mulberry32_zero_one, Prod.mk.injEq]
  constructor
  · have hf : ⌊(1144304738 : ℚ) / 4294967296 * ((4 : ℤ) : ℚ)⌋ = 1 := by
      rw [Int.floor_eq_iff]; push_cast; norm_num
    rw [hf]
    norm_num
  · have hf : ⌊(1416247 : ℚ) / 4294967296 * ((4 : ℤ) : ℚ)⌋ = 0 := by
      rw [Int.floor_eq_iff]; push_cast; norm_num
    rw [hf]
    norm_num

theorem rollStructure_zero : rollStructure 0 0 0 = none := by
  unfold rollStructure
  simp only [show gridCellOf 0 0 = (0, 0) from by decide, candidateChunkOf_zero]
  rw [if_neg (by decide : ¬ (((0 : ℤ), (0 : ℤ)) = ((1 : ℤ), (0 : ℤ))))]

theorem structurePhase_zero : structurePhase 0 0 0 [] = (none, []) := by
  unfold structurePhase
  rw [rollStructure_zero]
  rfl

theorem c5_grid_eq : (generateChunk 0 0 0 constNoise []).1 =
    applyChunkAutotiling (chunkBaseGrid 0 0 constNoise none none) := by
  unfold generateChunk
  rw [structurePhase_zero]
  rfl

theorem c5_mkTile_biome (x y : ℕ) :
    (mkTile 0 0 constNoise none none x y).biome = "water" := by
  unfold mkTile constNoise classifyBiome normalizeNoise CONFIG.WATER_THRESHOLD
  norm_num

theorem applyChunkAutotiling_length (g : List (List Tile)) :
    (applyChunkAutotiling g).length = g.length := by
  simp [applyChunkAutotiling]

theorem applyChunkAutotiling_col_length (g : List (List Tile)) (col : List Tile)
    (hcol : col ∈ applyChunkAutotiling g) :
    col.length = (g.headD []).length := by
  unfold applyChunkAutotiling at hcol
  rw [List.mem_map] at hcol
  obtain ⟨x, _, rfl⟩ := hcol
  simp

/-- Witness for C5: the (0,0) tile of the chunk generated at seed 0 with
constant −1/2 noise is water and indeed carries no scatter object. -/
theorem scatter_exclusivity_witness :
    ((((generateChunk 0 0 0 constNoise []).1.getD 0 []).getD 0 defaultTile).biome = "water") ∧
    ((((generateChunk 0 0 0 constNoise []).1.getD 0 []).getD 0 defaultTile).object = none) := by
  have hlen : 0 < (generateChunk 0 0 0 constNoise []).1.length := by
    rw [c5_grid_eq, applyChunkAutotiling_length, chunkBaseGrid_length]
    norm_num [CONFIG.CHUNK_SIZE]
  have hcolmem : (generateChunk 0 0 0 constNoise []).1.getD 0 [] ∈
      (generateChunk 0 0 0 constNoise []).1 := by
    rw [List.getD_eq_getElem _ _ hlen]
    exact List.getElem_mem hlen
  have hcollen : 0 < ((generateChunk 0 0 0 constNoise []).1.getD 0 []).length := by
    rw [c5_grid_eq] at hcolmem ⊢
    rw [applyChunkAutotiling_col_length _ _ hcolmem, chunkBaseGrid_head_length]
    norm_num [CONFIG.CHUNK_SIZE]
  have htmem : ((generateChunk 0 0 0 constNoise []).1.getD 0 []).getD 0 defaultTile ∈
      (generateChunk 0 0 0 constNoise []).1.getD 0 [] := by
    rw [List.getD_eq_getElem _ _ hcollen]
    exact List.getElem_mem hcollen
  have hcolmem2 : (generateChunk 0 0 0 constNoise []).1.getD 0 [] ∈
      applyChunkAutotiling (chunkBaseGrid 0 0 constNoise none none) := by
    rw [← c5_grid_eq]; exact hcolmem
  have hbio : ((((generateChunk 0 0 0 constNoise []).1.getD 0 []).getD 0 defaultTile).biome =
      "water") := by
    obtain ⟨x, y, hx, hy, _, _, _, hbi⟩ :=
      applyChunkAutotiling_fields _ _ _ hcolmem2 htmem
    rw [chunkBaseGrid_length] at hx
    rw [chunkBaseGrid_head_length] at hy
    rw [tileAtXY_chunkBaseGrid _ _ _ _ _ _ _ hx hy] at hbi
    rw [hbi, c5_mkTile_biome]
  exact ⟨hbio, scatter_exclusivity 0 0 0 constNoise [] _ _ hcolmem htmem (Or.inr (Or.inr hbio))⟩

/-! ### C4: unloadDistantChunks -/

/-- C4 counterexample: `unloadDistantChunks` evicts the chunk at Chebyshev
distance 10 > 3, but its structure-registry entry is NOT removed — the
method never touches the registry — refuting the claim that the registry
entry is removed as well. -/
theorem unloadDistantChunks_keeps_registry :
    (c4Cache.unloadDistantChunks 0 0 3).chunks = [] ∧
    max |(10 : ℤ) - 0| |(0 : ℤ) - 0| > 3 ∧
    (c4Cache.unloadDistantChunks 0 0 3).registry = [((10, 0), ⟨"village", 10, 0⟩)] := by
  refine ⟨?_, by decide, rfl⟩
  rw [show (c4Cache.unloadDistantChunks 0 0 3).chunks =
    c4Cache.chunks.filter (fun p =>
      !(decide (|p.1.1 - 0| > 3) || decide (|p.1.2 - 0| > 3))) from rfl]
  rfl

/-- C4 amended: after `unloadDistantChunks(centerCX, centerCY, keepDistance)`
the cache holds exactly the chunks within Chebyshev distance `keepDistance`
of the center, each with its grid unchanged; the structure registry is left
entirely unchanged (registry entries are removed only by `unloadChunk` /
`clear`). -/
theorem unloadDistantChunks_spec (cache : ChunkCache) (centerCX centerCY keepDistance : ℤ) :
    (cache.unloadDistantChunks centerCX centerCY keepDistance).registry = cache.registry ∧
    ∀ (k : ℤ × ℤ) (v : List (List Tile)),
      ((k, v) ∈ (cache.unloadDistantChunks centerCX centerCY keepDistance).chunks ↔
        (k, v) ∈ cache.chunks ∧ max |k.1 - centerCX| |k.2 - centerCY| ≤ keepDistance) := by
  refine ⟨rfl, fun k v => ?_⟩
  unfold ChunkCache.unloadDistantChunks
  rw [List.mem_filter]
  simp only [Bool.not_eq_true', Bool.or_eq_false_iff, decide_eq_false_iff_not, not_lt]
  constructor
  · rintro ⟨hm, h1, h2⟩
    exact ⟨hm, max_le h1 h2⟩
  · rintro ⟨hm, hmax⟩
    exact ⟨hm, le_of_max_le_left hmax, le_of_max_le_right hmax⟩

/-- Witness for the amended C4 theorem at the concrete cache `c4Cache`:
the far chunk is dropped from the cache and the registry is unchanged. -/
theorem unloadDistantChunks_spec_witness :
    (c4Cache.unloadDistantChunks 0 0 3).registry = c4Cache.registry ∧
    (((10, 0), ([] : List (List Tile))) ∈ (c4Cache.unloadDistantChunks 0 0 3).chunks ↔
      ((10, 0), ([] : List (List Tile))) ∈ c4Cache.chunks ∧
        max |(10 : ℤ) - 0| |(0 : ℤ) - 0| ≤ 3) :=
  ⟨(unloadDistantChunks_spec c4Cache 0 0 3).1,
    (unloadDistantChunks_spec c4Cache 0 0 3).2 (10, 0) []⟩

/-! ### C2: road graph — self-loop edge (code bug)

`generateGraph` pushes the new node *before* drawing the parent index from
`this.nodes.length`, so the draw ranges over the list including the node
itself: a draw with `rng() ≥ k/(k+1)` attaches the new node to itself.
The code's own comment ("Connect to random parent node (spanning tree)")
and the spec both require attachment to an already-existing node. -/

theorem growGraphStep_zero (rng : ℕ → ℚ) (acc : List (ℤ × ℤ) × List (ℕ × ℕ)) (i : ℕ) :
    growGraphStep 0 0 rng zeroFun zeroFun 0 acc i =
      (acc.1 ++ [(0, 0)],
       acc.2 ++ [(parentDraw rng i (acc.1.length + 1), acc.1.length)]) := by
  unfold growGraphStep zeroFun seededRandomAngle
  simp

theorem toNat_floor_eq (r : ℚ) (n : ℕ) (h1 : (n : ℚ) ≤ r) (h2 : r < n + 1) :
    (⌊r⌋).toNat = n := by
  have hf : ⌊r⌋ = (n : ℤ) := by
    rw [Int.floor_eq_iff]
    push_cast
    exact ⟨h1, h2⟩
  rw [hf]
  simp

theorem mulberry32_zero_draw3 : mulberry32 0 3 = (627933444 : ℚ) / 4294967296 := by
  unfold mulberry32
  rw [show (0 : ℤ) + (((3 : ℕ) : ℤ) + 1) * 1831565813 = 7326263252 by norm_num]
  rw [show mulberry32Out 7326263252 = 627933444 from by decide]
  norm_num

theorem mulberry32_zero_draw6 : mulberry32 0 6 = (2642484575 : ℚ) / 4294967296 := by
  unfold mulberry32
  rw [show (0 : ℤ) + (((6 : ℕ) : ℤ) + 1) * 1831565813 = 12820960691 by norm_num]
  rw [show mulberry32Out 12820960691 = 2642484575 from by decide]
  norm_num

theorem mulberry32_zero_draw9 : mulberry32 0 9 = (2496316458 : ℚ) / 4294967296 := by
  unfold mulberry32
  rw [show (0 : ℤ) + (((9 : ℕ) : ℤ) + 1) * 1831565813 = 18315658130 by norm_num]
  rw [show mulberry32Out 18315658130 = 2496316458 from by decide]
  norm_num

theorem mulberry32_zero_draw12 : mulberry32 0 12 = (3880206403 : ℚ) / 4294967296 := by
  unfold mulberry32
  rw [show (0 : ℤ) + (((12 : ℕ) : ℤ) + 1) * 1831565813 = 23810355569 by norm_num]
  rw [show mulberry32Out 23810355569 = 3880206403 from by decide]
  norm_num

theorem mulberry32_zero_draw15 : mulberry32 0 15 = (2834277798 : ℚ) / 4294967296 := by
  unfold mulberry32
  rw [show (0 : ℤ) + (((15 : ℕ) : ℤ) + 1) * 1831565813 = 29305053008 by norm_num]
  rw [show mulberry32Out 29305053008 = 2834277798 from by decide]
  norm_num

/-- C2 (code bug evaluation): at seed 0 and center (0, 0), the generated
road graph has 6 nodes and 5 edges, but its fourth edge is `(4, 4)` — the
node created at index 4 is attached to itself, so the edge set contains a
self-loop (an edge joining a node to itself), node 4 is unreachable from
the center node 0, and the edge set is not a tree, refuting the claimed
invariant at this input. -/
theorem parentDraw_seed0_1 : parentDraw (mulberry32 0) 1 2 = 0 := by
  unfold parentDraw
  rw [show (3 * 1 : ℕ) = 3 from rfl, mulberry32_zero_draw3]
  apply toNat_floor_eq <;> push_cast <;> norm_num

theorem parentDraw_seed0_2 : parentDraw (mulberry32 0) 2 3 = 1 := by
  unfold parentDraw
  rw [show (3 * 2 : ℕ) = 6 from rfl, mulberry32_zero_draw6]
  apply toNat_floor_eq <;> push_cast <;> norm_num

theorem parentDraw_seed0_3 : parentDraw (mulberry32 0) 3 4 = 2 := by
  unfold parentDraw
  rw [show (3 * 3 : ℕ) = 9 from rfl, mulberry32_zero_draw9]
  apply toNat_floor_eq <;> push_cast <;> norm_num

theorem parentDraw_seed0_4 : parentDraw (mulberry32 0) 4 5 = 4 := by
  unfold parentDraw
  rw [show (3 * 4 : ℕ) = 12 from rfl, mulberry32_zero_draw12]
  apply toNat_floor_eq <;> push_cast <;> norm_num

theorem parentDraw_seed0_5 : parentDraw (mulberry32 0) 5 6 = 3 := by
  unfold parentDraw
  rw [show (3 * 5 : ℕ) = 15 from rfl, mulberry32_zero_draw15]
  apply toNat_floor_eq <;> push_cast <;> norm_num

/-- C2 (code bug evaluation): at seed 0 and center (0, 0), the generated
road graph has 6 nodes and 5 edges, but its fourth edge is `(4, 4)` — the
node created at index 4 is attached to itself (the parent draw ranges over
the node list *after* the push), so the edge set contains a self-loop
joining a node to itself, node 4 is unreachable from the center node 0,
and the edge set is not a tree, refuting the claimed invariant at this
input. -/
theorem generateVillageRoadGraph_selfLoop :
    (generateVillageRoadGraph 0 0 0 zeroFun zeroFun 0).nodes.length = 6 ∧
    (generateVillageRoadGraph 0 0 0 zeroFun zeroFun 0).edges =
      [(0, 1), (1, 2), (2, 3), (4, 4), (3, 5)] ∧
    (4, 4) ∈ (generateVillageRoadGraph 0 0 0 zeroFun zeroFun 0).edges := by
  have hn : (⌊mulberry32 0 0 * (6 : ℚ)⌋).toNat = 1 := by
    rw [mulberry32_zero_zero]
    apply toNat_floor_eq <;> push_cast <;> norm_num
  have s1 : growGraphStep 0 0 (mulberry32 0) zeroFun zeroFun 0 ([(0, 0)], []) 1 =
      ([(0, 0), (0, 0)], [(0, 1)]) := by
    rw [growGraphStep_zero]
    norm_num [parentDraw_seed0_1]
  have s2 : growGraphStep 0 0 (mulberry32 0) zeroFun zeroFun 0
      ([(0, 0), (0, 0)], [(0, 1)]) 2 =
      ([(0, 0), (0, 0), (0, 0)], [(0, 1), (1, 2)]) := by
    rw [growGraphStep_zero]
    norm_num [parentDraw_seed0_2]
  have s3 : growGraphStep 0 0 (mulberry32 0) zeroFun zeroFun 0
      ([(0, 0), (0, 0), (0, 0)], [(0, 1), (1, 2)]) 3 =
      ([(0, 0), (0, 0), (0, 0), (0, 0)], [(0, 1), (1, 2), (2, 3)]) := by
    rw [growGraphStep_zero]
    norm_num [parentDraw_seed0_3]
  have s4 : growGraphStep 0 0 (mulberry32 0) zeroFun zeroFun 0
      ([(0, 0), (0, 0), (0, 0), (0, 0)], [(0, 1), (1, 2), (2, 3)]) 4 =
      ([(0, 0), (0, 0), (0, 0), (0, 0), (0, 0)], [(0, 1), (1, 2), (2, 3), (4, 4)]) := by
    rw [growGraphStep_zero]
    norm_num [parentDraw_seed0_4]
  have s5 : growGraphStep 0 0 (mulberry32 0) zeroFun zeroFun 0
      ([(0, 0), (0, 0), (0, 0), (0, 0), (0, 0)], [(0, 1), (1, 2), (2, 3), (4, 4)]) 5 =
      ([(0, 0), (0, 0), (0, 0), (0, 0), (0, 0), (0, 0)],
        [(0, 1), (1, 2), (2, 3), (4, 4), (3, 5)]) := by
    rw [growGraphStep_zero]
    norm_num [parentDraw_seed0_5]
  have hgraph : generateVillageRoadGraph 0 0 0 zeroFun zeroFun 0 =
      ⟨0, 0, [(0,0), (0,0), (0,0), (0,0), (0,0), (0,0)],
        [(0, 1), (1, 2), (2, 3), (4, 4), (3, 5)]⟩ := by
    unfold generateVillageRoadGraph generateGraph
    simp only [Int.floor_zero, hn]
    rw [show List.range' 1 (5 + 1 - 1) = [1, 2, 3, 4, 5] from rfl]
    simp only [List.foldl_cons, List.foldl_nil, s1, s2, s3, s4, s5]
  rw [hgraph]
  refine ⟨rfl, rfl, ?_⟩
  decide

/-! ### C3: structure spacing -/

theorem rollStructure_some_candidate (cx cy worldSeed : ℤ) (ty : String)
    (h : rollStructure cx cy worldSeed = some ty) :
    (cx, cy) = candidateChunkOf worldSeed (gridCellOf cx cy).1 (gridCellOf cx cy).2 := by
  unfold rollStructure at h
  by_cases hc :
      (cx, cy) = candidateChunkOf worldSeed (gridCellOf cx cy).1 (gridCellOf cx cy).2
  · exact hc
  · rw [if_neg hc] at h
    exact absurd h (by simp)

theorem registrySet_mem_cases (reg : Registry) (k : ℤ × ℤ) (v : StructureRecord)
    (e : (ℤ × ℤ) × StructureRecord) (he : e ∈ registrySet reg k v) :
    e ∈ reg ∨ e = (k, v) := by
  unfold registrySet at he
  by_cases h : reg.any (fun p => p.1 == k)
  · rw [if_pos h] at he
    rw [List.mem_map] at he
    obtain ⟨p, hp, hpe⟩ := he
    by_cases hpk : (p.1 == k) = true
    · right
      rw [← hpe, if_pos hpk]
    · left
      rw [← hpe, if_neg hpk]
      exact hp
  · rw [if_neg h] at he
    rw [List.mem_append] at he
    rcases he with he | he
    · exact Or.inl he
    · right
      simpa using he

theorem registryInv_step (worldSeed cx cy : ℤ) (noiseFunctions : NoiseFunctions)
    (reg : Registry) (hinv : registryInv worldSeed reg) :
    registryInv worldSeed (generateChunk cx cy worldSeed noiseFunctions reg).2 := by
  show registryInv worldSeed (structurePhase cx cy worldSeed reg).2
  unfold structurePhase
  cases hroll : rollStructure cx cy worldSeed with
  | none => exact hinv
  | some ty =>
    dsimp only
    intro e he
    rcases registrySet_mem_cases _ _ _ _ he with hmem | rfl
    · exact hinv e hmem
    · exact ⟨rfl, rollStructure_some_candidate cx cy worldSeed ty hroll⟩

theorem registryInv_of_reachable (worldSeed : ℤ) (noiseFunctions : NoiseFunctions)
    (reg : Registry) (h : RegistryReachable worldSeed noiseFunctions reg) :
    registryInv worldSeed reg := by
  induction h with
  | nil => intro e he; simp at he
  | step cx cy _ ih => exact registryInv_step _ _ _ _ _ ih

/-- C3 amended: any two structure records in a registry reachable through
`generateChunk` calls sit at their own (distinct) origin chunks, and those
chunks lie in distinct `SPACING × SPACING` grid cells — each cell selects
exactly one candidate chunk, so a cell never holds two records.  (The
claimed Chebyshev bound `≥ SPACING − 1` does not hold: candidates of
adjacent cells can be Chebyshev distance 1 apart.) -/
theorem structure_records_distinct_cells (worldSeed : ℤ)
    (noiseFunctions : NoiseFunctions) (reg : Registry)
    (hreach : RegistryReachable worldSeed noiseFunctions reg)
    (e1 e2 : (ℤ × ℤ) × StructureRecord) (h1 : e1 ∈ reg) (h2 : e2 ∈ reg)
    (hne : e1.1 ≠ e2.1) :
    (e1.2.cx, e1.2.cy) ≠ (e2.2.cx, e2.2.cy) ∧
    gridCellOf e1.2.cx e1.2.cy ≠ gridCellOf e2.2.cx e2.2.cy := by
  have hinv := registryInv_of_reachable _ _ _ hreach
  obtain ⟨hk1, hc1⟩ := hinv e1 h1
  obtain ⟨hk2, hc2⟩ := hinv e2 h2
  have hcoord : (e1.2.cx, e1.2.cy) ≠ (e2.2.cx, e2.2.cy) := by
    intro hEq
    apply hne
    rw [hk1, hk2, hEq]
  refine ⟨hcoord, fun hcell => hcoord ?_⟩
  rw [hc1, hc2, hcell]

/-! #### C3 concrete scenario: seed 471, chunks (3,3) and (4,3) -/

theorem mulberry32_471_roll : mulberry32 471 2 = (128812050 : ℚ) / 4294967296 := by
  unfold mulberry32
  rw [show (471 : ℤ) + (((2 : ℕ) : ℤ) + 1) * 1831565813 = 5494697910 by norm_num]
  rw [show mulberry32Out 5494697910 = 128812050 from by decide]
  norm_num

theorem mulberry32_918744_roll : mulberry32 918744 2 = (75317773 : ℚ) / 4294967296 := by
  unfold mulberry32
  rw [show (918744 : ℤ) + (((2 : ℕ) : ℤ) + 1) * 1831565813 = 5495616183 by norm_num]
  rw [show mulberry32Out 5495616183 = 75317773 from by decide]
  norm_num

theorem candidateChunkOf_471_cell00 : candidateChunkOf 471 0 0 = (3, 3) := by
  unfold candidateChunkOf gridSeedOf CONFIG.STRUCTURE_SPACING
  have hm0 : mulberry32 (471 + 0 * 918273 + 0 * 192837) 0 =
      (4133197703 : ℚ) / 4294967296 := by
    unfold mulberry32
    rw [show (471 : ℤ) + 0 * 918273 + 0 * 192837 + (((0 : ℕ) : ℤ) + 1) * 1831565813 =
      1831566284 by norm_num]
    rw [show mulberry32Out 1831566284 = 4133197703 from by decide]
    norm_num
  have hm1 : mulberry32 (471 + 0 * 918273 + 0 * 192837) 1 =
      (4284502846 : ℚ) / 4294967296 := by
    unfold mulberry32
    rw [show (471 : ℤ) + 0 * 918273 + 0 * 192837 + (((1 : ℕ) : ℤ) + 1) * 1831565813 =
      3663132097 by norm_num]
    rw [show mulberry32Out 3663132097 = 4284502846 from by decide]
    norm_num
  simp only [hm0, hm1, Prod.mk.injEq]
  constructor
  · have hf : ⌊(4133197703 : ℚ) / 4294967296 * ((4 : ℤ) : ℚ)⌋ = 3 := by
      rw [Int.floor_eq_iff]; push_cast; norm_num
    rw [hf]
    norm_num
  · have hf : ⌊(4284502846 : ℚ) / 4294967296 * ((4 : ℤ) : ℚ)⌋ = 3 := by
      rw [Int.floor_eq_iff]; push_cast; norm_num
    rw [hf]
    norm_num

theorem candidateChunkOf_471_cell10 : candidateChunkOf 471 1 0 = (4, 3) := by
  unfold candidateChunkOf gridSeedOf CONFIG.STRUCTURE_SPACING
  have hm0 : mulberry32 (471 + 1 * 918273 + 0 * 192837) 0 =
      (66231036 : ℚ) / 4294967296 := by
    unfold mulberry32
    rw [show (471 : ℤ) + 1 * 918273 + 0 * 192837 + (((0 : ℕ) : ℤ) + 1) * 1831565813 =
      1832484557 by norm_num]
    rw [show mulberry32Out 1832484557 = 66231036 from by decide]
    norm_num
  have hm1 : mulberry32 (471 + 1 * 918273 + 0 * 192837) 1 =
      (4006691884 : ℚ) / 4294967296 := by
    unfold mulberry32
    rw [show (471 : ℤ) + 1 * 918273 + 0 * 192837 + (((1 : ℕ) : ℤ) + 1) * 1831565813 =
      3664050370 by norm_num]
    rw [show mulberry32Out 3664050370 = 4006691884 from by decide]
    norm_num
  simp only [hm0, hm1, Prod.mk.injEq]
  constructor
  · have hf : ⌊(66231036 : ℚ) / 4294967296 * ((4 : ℤ) : ℚ)⌋ = 0 := by
      rw [Int.floor_eq_iff]; push_cast; norm_num
    rw [hf]
    norm_num
  · have hf : ⌊(4006691884 : ℚ) / 4294967296 * ((4 : ℤ) : ℚ)⌋ = 3 := by
      rw [Int.floor_eq_iff]; push_cast; norm_num
    rw [hf]
    norm_num

theorem c3_roll_33 : rollStructure 3 3 471 = some "village" := by
  unfold rollStructure
  rw [show gridCellOf 3 3 = (0, 0) from by decide]
  simp only [candidateChunkOf_471_cell00]
  rw [if_pos trivial]
  rw [show gridSeedOf 471 0 0 = 471 by unfold gridSeedOf; norm_num]
  rw [if_pos (by rw [mulberry32_471_roll]
                 unfold CONFIG.STRUCTURE_SPAWN_CHANCE_VILLAGE
                 norm_num)]

theorem c3_roll_43 : rollStructure 4 3 471 = some "village" := by
  unfold rollStructure
  rw [show gridCellOf 4 3 = (1, 0) from by decide]
  simp only [candidateChunkOf_471_cell10]
  rw [if_pos trivial]
  rw [show gridSeedOf 471 1 0 = 918744 by unfold gridSeedOf; norm_num]
  rw [if_pos (by rw [mulberry32_918744_roll]
                 unfold CONFIG.STRUCTURE_SPAWN_CHANCE_VILLAGE
                 norm_num)]

theorem c3_reg1 : (generateChunk 3 3 471 constNoise []).2 =
    [((3, 3), ⟨"village", 3, 3⟩)] := by
  show (structurePhase 3 3 471 []).2 = _
  unfold structurePhase
  rw [c3_roll_33]
  rfl

theorem c3_reg2 :
    (generateChunk 4 3 471 constNoise (generateChunk 3 3 471 constNoise []).2).2 =
    [((3, 3), ⟨"village", 3, 3⟩), ((4, 3), ⟨"village", 4, 3⟩)] := by
  rw [show (generateChunk 4 3 471 constNoise
      (generateChunk 3 3 471 constNoise []).2).2 =
    (structurePhase 4 3 471 (generateChunk 3 3 471 constNoise []).2).2 from rfl]
  rw [c3_reg1]
  unfold structurePhase
  rw [c3_roll_43]
  rfl

/-- C3 counterexample: at world seed 471, generating chunk (3,3) and then
chunk (4,3) leaves two structure records in the registry whose origin
chunks are at Chebyshev distance 1, which is less than SPACING − 1 = 3 —
refuting the claimed spacing bound. -/
theorem structure_spacing_counterexample :
    ((3, 3), (⟨"village", 3, 3⟩ : StructureRecord)) ∈
      (generateChunk 4 3 471 constNoise (generateChunk 3 3 471 constNoise []).2).2 ∧
    ((4, 3), (⟨"village", 4, 3⟩ : StructureRecord)) ∈
      (generateChunk 4 3 471 constNoise (generateChunk 3 3 471 constNoise []).2).2 ∧
    max |(3 : ℤ) - 4| |(3 : ℤ) - 3| < CONFIG.STRUCTURE_SPACING - 1 := by
  rw [c3_reg2]
  refine ⟨by simp, by simp, by decide⟩

/-- Witness for the amended C3 theorem at the concrete seed-471 registry. -/
theorem structure_records_distinct_cells_witness :
    ((3 : ℤ), (3 : ℤ)) ≠ ((4 : ℤ), (3 : ℤ)) ∧ gridCellOf 3 3 ≠ gridCellOf 4 3 := by
  have hreach : RegistryReachable 471 constNoise
      [((3, 3), ⟨"village", 3, 3⟩), ((4, 3), ⟨"village", 4, 3⟩)] := by
    have h0 := @RegistryReachable.step 471 constNoise 4 3 _
      (@RegistryReachable.step 471 constNoise 3 3 _ RegistryReachable.nil)
    rwa [c3_reg2] at h0
  exact structure_records_distinct_cells 471 constNoise _ hreach
    ((3, 3), ⟨"village", 3, 3⟩) ((4, 3), ⟨"village", 4, 3⟩)
    (by simp) (by simp) (by decide)

/-! ### C6: autotile mask and variant resolution -/

theorem canTransition_self (b : String) : canTransition b b = true := by
  unfold canTransition
  simp

theorem maskFold_all_compatible (b : String) (grid : List (List Tile)) (x y : ℤ)
    (ds : List (ℤ × ℤ × ℕ)) (acc : ℕ × List (String × String))
    (h : ∀ d ∈ ds, inChunkBounds grid (x + d.1) (y + d.2.1) ∧
      canTransition b (tileAtXY grid (x + d.1) (y + d.2.1)).biome = true) :
    (ds.foldl (maskFoldStep b grid x y) acc).1 =
      ds.foldl (fun m d => m ||| (1 <<< d.2.2)) acc.1 := by
  induction ds generalizing acc with
  | nil => rfl
  | cons d ds ih =>
    obtain ⟨hb, hc⟩ := h d (List.mem_cons_self d ds)
    simp only [List.foldl_cons]
    rw [ih _ (fun e he => h e (List.mem_cons_of_mem d he))]
    congr 1
    unfold maskFoldStep
    rw [if_pos hb]
    simp only [hc, if_true]

theorem maskFold_none_compatible (b : String) (grid : List (List Tile)) (x y : ℤ)
    (ds : List (ℤ × ℤ × ℕ)) (acc : ℕ × List (String × String))
    (h : ∀ d ∈ ds, ¬ inChunkBounds grid (x + d.1) (y + d.2.1) ∨
      canTransition b (tileAtXY grid (x + d.1) (y + d.2.1)).biome = false) :
    (ds.foldl (maskFoldStep b grid x y) acc).1 = acc.1 := by
  induction ds generalizing acc with
  | nil => rfl
  | cons d ds ih =>
    simp only [List.foldl_cons]
    rw [ih _ (fun e he => h e (List.mem_cons_of_mem d he))]
    rcases h d (List.mem_cons_self d ds) with hb | hc
    · unfold maskFoldStep
      rw [if_neg hb]
    · unfold maskFoldStep
      by_cases hb : inChunkBounds grid (x + d.1) (y + d.2.1)
      · rw [if_pos hb]
        simp only [hc, Bool.false_eq_true, if_false]
      · rw [if_neg hb]

/-- C6: (i) a tile whose 8 in-chunk neighbors all exist and carry the
identical biome gets mask `0xFF` and resolves to the table's entry for the
all-compatible mask `0xFF` (the "all-compatible" variant — the record
`{id := "corners"}`); (ii) a tile none of whose neighbors is compatible
(out of bounds or transition-incompatible) gets mask `0x00`; (iii) any
mask value without an exact table entry resolves to the table's `0x00`
fallback, the variant the table labels "all neighbors same".  Mask
computation applies to structure-free tiles (`applyChunkAutotiling` skips
tiles with a structure tag). -/
theorem autotile_mask_spec :
    (∀ (grid : List (List Tile)) (b : String) (x y : ℤ),
      (∀ d ∈ neighborOffsets, inChunkBounds grid (x + d.1) (y + d.2.1) ∧
        (tileAtXY grid (x + d.1) (y + d.2.1)).biome = b) →
      (calculateTileMask b grid x y).1 = 255 ∧
      getVariantFromMask (calculateTileMask b grid x y).1 = lookupTileVariant 255) ∧
    (∀ (grid : List (List Tile)) (b : String) (x y : ℤ),
      (∀ d ∈ neighborOffsets, ¬ inChunkBounds grid (x + d.1) (y + d.2.1) ∨
        canTransition b (tileAtXY grid (x + d.1) (y + d.2.1)).biome = false) →
      (calculateTileMask b grid x y).1 = 0) ∧
    (∀ mask : ℕ, lookupTileVariant mask = none →
      getVariantFromMask mask = lookupTileVariant 0) := by
  refine ⟨?_, ?_, ?_⟩
  · intro grid b x y h
    have hmask : (calculateTileMask b grid x y).1 = 255 := by
      unfold calculateTileMask
      rw [maskFold_all_compatible b grid x y neighborOffsets (0, [])
        (fun d hd => ⟨(h d hd).1, by rw [(h d hd).2]; exact canTransition_self b⟩)]
      decide
    exact ⟨hmask, by rw [hmask]; decide⟩
  · intro grid b x y h
    unfold calculateTileMask
    exact maskFold_none_compatible b grid x y neighborOffsets (0, []) h
  · intro mask h
    unfold getVariantFromMask
    rw [h]
    by_cases h255 : mask = 255
    · rw [h255] at h
      exact absurd h (by decide)
    · by_cases h0 : mask = 0
      · rw [h0] at h
        exact absurd h (by decide)
      · simp only [if_neg h255, if_neg h0]

/-- Witness for C6: a grass tile centered in a 3×3 grass grid, a dungeon
tile surrounded by water, and the table-less mask 17. -/
theorem autotile_mask_spec_witness :
    ((calculateTileMask "grass" c6GrassGrid 1 1).1 = 255 ∧
      getVariantFromMask (calculateTileMask "grass" c6GrassGrid 1 1).1 =
        lookupTileVariant 255) ∧
    (calculateTileMask "dungeon" c6WaterGrid 1 1).1 = 0 ∧
    getVariantFromMask 17 = lookupTileVariant 0 :=
  ⟨autotile_mask_spec.1 c6GrassGrid "grass" 1 1 (by decide),
   autotile_mask_spec.2.1 c6WaterGrid "dungeon" 1 1 (by decide),
   autotile_mask_spec.2.2 17 (by decide)⟩

/-! ### C7: rasterizeroads — first-writer-wins and idempotence -/

theorem getD_set_ne {α : Type} (l : List α) (n i : ℕ) (a d : α) (h : n ≠ i) :
    (l.set n a).getD i d = l.getD i d := by
  by_cases hi : i < l.length
  · rw [List.getD_eq_getElem _ _ (by simpa using hi), List.getD_eq_getElem _ _ hi]
    exact List.getElem_set_ne h _
  · rw [List.getD_eq_default _ _ (by simpa using le_of_not_lt hi),
      List.getD_eq_default _ _ (le_of_not_lt hi)]

theorem getD_set_self {α : Type} (l : List α) (n : ℕ) (a d : α) (h : n < l.length) :
    (l.set n a).getD n d = a := by
  rw [List.getD_eq_getElem _ _ (by simpa using h)]
  exact List.getElem_set_self (by simpa using h)

theorem setRoadIfNull_length (g : List (List Tile)) (tx ty : ℤ) (rt : String) :
    (setRoadIfNull g tx ty rt).length = g.length := by
  unfold setRoadIfNull
  split_ifs <;> simp

theorem setRoadIfNull_getD_length (g : List (List Tile)) (tx ty : ℤ) (rt : String) (i : ℕ) :
    ((setRoadIfNull g tx ty rt).getD i []).length = (g.getD i []).length := by
  unfold setRoadIfNull
  split_ifs with h1 h2
  · by_cases hi : ty.toNat = i
    · subst hi
      rw [getD_set_self _ _ _ _ (by omega)]
      simp
    · rw [getD_set_ne _ _ _ _ _ hi]
  · rfl
  · rfl

theorem setRoadIfNull_tileAt (g : List (List Tile)) (tx ty : ℤ) (rt : String)
    (y x : ℕ) (hy : y < g.length) (hx : x < (g.getD y []).length) :
    roadTileAt (setRoadIfNull g tx ty rt) y x =
      if ty = (y : ℤ) ∧ tx = (x : ℤ) ∧ (roadTileAt g y x).roadType = none then
        { roadTileAt g y x with roadType := some rt }
      else roadTileAt g y x := by
  unfold setRoadIfNull roadTileAt
  by_cases hb : 0 ≤ ty ∧ ty < g.length ∧ 0 ≤ tx ∧ tx < (g.getD ty.toNat []).length
  · rw [if_pos hb]
    by_cases hpos : ty.toNat = y ∧ tx.toNat = x
    · have hty : ty = (y : ℤ) := by omega
      have htx : tx = (x : ℤ) := by omega
      have hynat : ty.toNat = y := hpos.1
      have hxnat : tx.toNat = x := hpos.2
      by_cases hrt : ((g.getD ty.toNat []).getD tx.toNat defaultTile).roadType = none
      · rw [if_pos hrt]
        rw [hynat, hxnat] at hrt ⊢
        rw [if_pos ⟨hty, htx, hrt⟩]
        rw [getD_set_self _ _ _ _ (by omega), getD_set_self _ _ _ _ hx]
      · rw [if_neg hrt]
        rw [hynat, hxnat] at hrt
        rw [if_neg (by intro hcon; exact hrt hcon.2.2)]
    · have hcond : ¬(ty = (y : ℤ) ∧ tx = (x : ℤ) ∧
          ((g.getD y []).getD x defaultTile).roadType = none) := by
        rintro ⟨h1', h2', _⟩
        apply hpos
        omega
      rw [if_neg hcond]
      by_cases hrt : ((g.getD ty.toNat []).getD tx.toNat defaultTile).roadType = none
      · rw [if_pos hrt]
        by_cases hrow : ty.toNat = y
        · have hcol : tx.toNat ≠ x := fun hc => hpos ⟨hrow, hc⟩
          rw [hrow]
          rw [getD_set_self _ _ _ _ (by omega)]
          rw [getD_set_ne _ _ _ _ _ hcol]
        · rw [getD_set_ne _ _ _ _ _ hrow]
      · rw [if_neg hrt]
  · rw [if_neg hb]
    rw [if_neg (by
      rintro ⟨h1', h2', _⟩
      apply hb
      refine ⟨by omega, by omega, by omega, ?_⟩
      have : ty.toNat = y := by omega
      rw [this]
      omega)]

theorem applyRoadWrites_length (ps : List (ℤ × ℤ)) (rt : String) (g : List (List Tile)) :
    (applyRoadWrites ps rt g).length = g.length := by
  induction ps generalizing g with
  | nil => rfl
  | cons p ps ih =>
    show (applyRoadWrites ps rt (setRoadIfNull g p.1 p.2 rt)).length = _
    rw [ih, setRoadIfNull_length]

theorem applyRoadWrites_getD_length (ps : List (ℤ × ℤ)) (rt : String)
    (g : List (List Tile)) (i : ℕ) :
    ((applyRoadWrites ps rt g).getD i []).length = (g.getD i []).length := by
  induction ps generalizing g with
  | nil => rfl
  | cons p ps ih =>
    show ((applyRoadWrites ps rt (setRoadIfNull g p.1 p.2 rt)).getD i []).length = _
    rw [ih, setRoadIfNull_getD_length]

theorem applyRoadWrites_tileAt (ps : List (ℤ × ℤ)) (rt : String)
    (g : List (List Tile)) (y x : ℕ) (hy : y < g.length)
    (hx : x < (g.getD y []).length) :
    roadTileAt (applyRoadWrites ps rt g) y x =
      if (roadTileAt g y x).roadType = none ∧ ((x : ℤ), (y : ℤ)) ∈ ps then
        { roadTileAt g y x with roadType := some rt }
      else roadTileAt g y x := by
  induction ps generalizing g with
  | nil => simp [applyRoadWrites]
  | cons p ps ih =>
    show roadTileAt (applyRoadWrites ps rt (setRoadIfNull g p.1 p.2 rt)) y x = _
    have hy1 : y < (setRoadIfNull g p.1 p.2 rt).length := by
      rw [setRoadIfNull_length]; exact hy
    have hx1 : x < ((setRoadIfNull g p.1 p.2 rt).getD y []).length := by
      rw [setRoadIfNull_getD_length]; exact hx
    rw [ih _ hy1 hx1]
    rw [show roadTileAt (setRoadIfNull g p.1 p.2 rt) y x = _ from
      setRoadIfNull_tileAt g p.1 p.2 rt y x hy hx]
    by_cases hp : p.2 = (y : ℤ) ∧ p.1 = (x : ℤ) ∧ (roadTileAt g y x).roadType = none
    · rw [if_pos hp]
      have hmem : ((x : ℤ), (y : ℤ)) ∈ p :: ps := by
        rw [show ((x : ℤ), (y : ℤ)) = p from by
          rw [Prod.ext_iff]; exact ⟨hp.2.1.symm, hp.1.symm⟩]
        exact List.mem_cons_self p ps
      rw [if_neg (by simp), if_pos ⟨hp.2.2, hmem⟩]
    · rw [if_neg hp]
      by_cases hrt : (roadTileAt g y x).roadType = none
      · have hne : ((x : ℤ), (y : ℤ)) ≠ p := by
          intro hpe
          exact hp ⟨by rw [← hpe], by rw [← hpe], hrt⟩
        by_cases hmem : ((x : ℤ), (y : ℤ)) ∈ ps
        · rw [if_pos ⟨hrt, hmem⟩, if_pos ⟨hrt, List.mem_cons_of_mem p hmem⟩]
        · rw [if_neg (fun hcon => hmem hcon.2),
            if_neg (fun hcon => hmem (by
              rcases List.mem_cons.mp hcon.2 with hh | ht
              · exact absurd hh hne
              · exact ht))]
      · rw [if_neg (fun hcon => hrt hcon.1), if_neg (fun hcon => hrt hcon.1)]

theorem applyRoadWrites_flatMap {α : Type} (l : List α) (f : α → List (ℤ × ℤ))
    (rt : String) (g : List (List Tile)) :
    applyRoadWrites (l.flatMap f) rt g =
      l.foldl (fun g2 a => applyRoadWrites (f a) rt g2) g := by
  induction l generalizing g with
  | nil => rfl
  | cons a l ih =>
    rw [List.flatMap_cons]
    rw [show applyRoadWrites (f a ++ l.flatMap f) rt g =
      applyRoadWrites (l.flatMap f) rt (applyRoadWrites (f a) rt g) from
        List.foldl_append _ _ _ _]
    rw [ih]
    rfl

theorem applyRoadWrites_map {α : Type} (l : List α) (f : α → ℤ × ℤ)
    (rt : String) (g : List (List Tile)) :
    applyRoadWrites (l.map f) rt g =
      l.foldl (fun g2 a => setRoadIfNull g2 (f a).1 (f a).2 rt) g := by
  unfold applyRoadWrites
  rw [List.foldl_map]

theorem writeSquare_eq (g : List (List Tile)) (x y w : ℤ) (rt : String) :
    writeSquare g x y w rt =
      applyRoadWrites ((intRangeIncl (-w) w).flatMap (fun dx =>
        (intRangeIncl (-w) w).map (fun dy => (x + dx, y + dy)))) rt g := by
  rw [applyRoadWrites_flatMap]
  unfold writeSquare
  congr 1
  funext g1 dx
  rw [applyRoadWrites_map]

theorem rasterizeroads_eq (tileMap : List (List Tile)) (graph : RoadGraphData)
    (options : RoadOptions) :
    rasterizeroads tileMap graph options =
      applyRoadWrites (roadWritePositions graph (optRoadWidth options.roadWidth))
        (optRoadType options.roadType) tileMap := by
  unfold rasterizeroads roadWritePositions
  rw [applyRoadWrites_flatMap]
  congr 1
  funext g2 e
  rw [applyRoadWrites_flatMap]
  congr 1
  funext g3 p
  rw [writeSquare_eq]

theorem grid_eq_of_roadTileAt (g1 g2 : List (List Tile)) (hlen : g1.length = g2.length)
    (hrows : ∀ i, (g1.getD i []).length = (g2.getD i []).length)
    (htiles : ∀ y x, y < g2.length → x < (g2.getD y []).length →
      roadTileAt g1 y x = roadTileAt g2 y x) :
    g1 = g2 := by
  apply List.ext_getElem hlen
  intro y hy1 hy2
  apply List.ext_getElem
  · have h := hrows y
    rw [List.getD_eq_getElem _ _ hy1, List.getD_eq_getElem _ _ hy2] at h
    exact h
  · intro x hx1 hx2
    have ht := htiles y x hy2 (by rw [List.getD_eq_getElem _ _ hy2]; exact hx2)
    unfold roadTileAt at ht
    rw [List.getD_eq_getElem _ _ hy1, List.getD_eq_getElem _ _ hy2] at ht
    rw [List.getD_eq_getElem _ _ hx1, List.getD_eq_getElem _ _ hx2] at ht
    exact ht

/-- C7: `rasterizeroads` never changes a tile whose `roadType` is already
non-null (first-writer-wins), and rasterizing the same graph with the same
options a second time leaves the grid — in particular every tile's
`roadType` — exactly as the first rasterization left it. -/
theorem rasterizeroads_first_writer_wins (tileMap : List (List Tile))
    (graph : RoadGraphData) (options : RoadOptions) :
    rasterizeroads (rasterizeroads tileMap graph options) graph options =
      rasterizeroads tileMap graph options ∧
    (∀ y x : ℕ, y < tileMap.length → x < (tileMap.getD y []).length →
      (roadTileAt tileMap y x).roadType ≠ none →
      roadTileAt (rasterizeroads tileMap graph options) y x = roadTileAt tileMap y x) := by
  constructor
  · rw [rasterizeroads_eq tileMap, rasterizeroads_eq]
    apply grid_eq_of_roadTileAt
    · rw [applyRoadWrites_length]
    · intro i
      rw [applyRoadWrites_getD_length]
    · intro y x hy hx
      have hy0 : y < tileMap.length := by
        rw [applyRoadWrites_length] at hy
        exact hy
      have hx0 : x < (tileMap.getD y []).length := by
        rw [applyRoadWrites_getD_length] at hx
        exact hx
      rw [applyRoadWrites_tileAt _ _ _ _ _ hy hx]
      by_cases hcov :
          ((x : ℤ), (y : ℤ)) ∈ roadWritePositions graph (optRoadWidth options.roadWidth)
      · have hsome : (roadTileAt (applyRoadWrites
            (roadWritePositions graph (optRoadWidth options.roadWidth))
            (optRoadType options.roadType) tileMap) y x).roadType ≠ none := by
          rw [applyRoadWrites_tileAt _ _ _ _ _ hy0 hx0]
          by_cases hrt : (roadTileAt tileMap y x).roadType = none
          · rw [if_pos ⟨hrt, hcov⟩]
            simp
          · rw [if_neg (fun hcon => hrt hcon.1)]
            exact hrt
        rw [if_neg (fun hcon => hsome hcon.1)]
      · rw [if_neg (fun hcon => hcov hcon.2)]
  · intro y x hy hx hne
    rw [rasterizeroads_eq]
    rw [applyRoadWrites_tileAt _ _ _ _ _ hy hx]
    rw [if_neg (fun hcon => hne hcon.1)]

/-- Witness for C7 at a 1×1 grid whose tile already carries a road tag. -/
theorem rasterizeroads_first_writer_wins_witness :
    rasterizeroads (rasterizeroads c7Grid c7Graph c7Options) c7Graph c7Options =
      rasterizeroads c7Grid c7Graph c7Options ∧
    roadTileAt (rasterizeroads c7Grid c7Graph c7Options) 0 0 = roadTileAt c7Grid 0 0 :=
  ⟨(rasterizeroads_first_writer_wins c7Grid c7Graph c7Options).1,
   (rasterizeroads_first_writer_wins c7Grid c7Graph c7Options).2 0 0
     (by decide) (by decide) (by decide)⟩

end WorldGen
